import Mathlib

/-!
Shallow embedding of the BI_Tool backend (src/backend/cleaning.py,
src/backend/engineering.py, src/backend/narratives.py, src/backend/utils.py)
and proofs about the frozen claims.

A pandas DataFrame is modelled as an ordered list of named, dtyped columns
sharing one row count.  Cell values are modelled by the inductive `Value`:
`na` models NaN/NaT/None, `num` models int/float cells (as exact rationals),
`str` models strings, `date` models datetime64 cells (days since epoch).
Library primitives that the backend calls (pandas `to_datetime` parsing,
the unseeded random `Series.sample`, sklearn's KMeans `fit_predict`,
numpy `log`/`sqrt`) are not part of this repository; they enter the
embedding as explicit function parameters constrained only by their
documented contracts, so every theorem quantifies over them.
-/

namespace BI

/-- Cell values of a column.  `na` models a missing value (NaN/NaT/None). -/
inductive Value where
  | na : Value
  | num : ℚ → Value
  | str : String → Value
  | date : ℤ → Value
deriving DecidableEq, Repr

/-- pandas dtype of a column, as used by `select_dtypes` in the backend:
`numeric` matches `np.number`, `object` and `category` are the two
"categorical" dtypes, `datetime` matches `datetime64[ns]`. -/
inductive Dtype where
  | numeric : Dtype
  | object : Dtype
  | category : Dtype
  | datetime : Dtype
deriving DecidableEq, Repr

/-- One DataFrame column: a name, a dtype and the cell values in row order. -/
structure Col where
  name : String
  dtype : Dtype
  values : List Value
deriving DecidableEq, Repr

/-- A DataFrame: the row count (`len(df)`) and the ordered columns.
Well-formed frames have every column of length `nrows`; theorems that
need this state it as a hypothesis. -/
structure Df where
  nrows : Nat
  cols : List Col
deriving DecidableEq, Repr

/-- Every column holds exactly `nrows` values. -/
def Df.WF (df : Df) : Prop :=
  ∀ c ∈ df.cols, c.values.length = df.nrows

/-- The column names of a frame, in order. -/
def Df.names (df : Df) : List String :=
  df.cols.map (fun c => c.name)

/-- Is a cell missing?  Models `pd.isnull` on a single cell. -/
def isNa : Value → Bool
  | Value.na => true
  | _ => false

/-- Remove duplicates keeping the first occurrence of each element
(the semantics of `DataFrame.drop_duplicates` / the complement of
`duplicated(keep=first)`). -/
def dropDups {α : Type} [DecidableEq α] (seen : List α) : List α → List α
  | [] => []
  | x :: xs => if x ∈ seen then dropDups seen xs else x :: dropDups (x :: seen) xs

/-- `Series.nunique()`: number of distinct non-missing values (pandas
excludes NaN by default). -/
def nuniqueV (vs : List Value) : Nat :=
  (dropDups [] (vs.filter (fun v => !(isNa v)))).length

/-- `src/backend/cleaning.py::_remove_useless_columns`, the per-column test:
a column is flagged when `df[col].nunique() / len(df) > 0.95` (heuristic 1)
or `df[col].nunique() == len(df)` (heuristic 2).  The `continue` after the
first test only prevents a double append, so the flag is the disjunction.
The float comparison `nunique/len > 0.95` is written as the equivalent
integer comparison `20*nunique > 19*len` (for `len = 0` Python raises
ZeroDivisionError; the spec aborts on empty input, so theorems assume
`0 < nrows`). -/
def isUselessCol (n : Nat) (c : Col) : Bool :=
  (20 * nuniqueV c.values > 19 * n) || (nuniqueV c.values == n)

/-- The names collected in `useless_cols`, in column order. -/
def uselessNames (df : Df) : List String :=
  (df.cols.filter (fun c => isUselessCol df.nrows c)).map (fun c => c.name)

/-- `_remove_useless_columns`: drop the flagged columns (the log field
`useless_columns_removed` receives `uselessNames df`, also when empty). -/
def _remove_useless_columns (df : Df) : Df :=
  { df with cols := df.cols.filter (fun c => !(isUselessCol df.nrows c)) }

/-- Character-list prefix test (helper for the substring test below). -/
def isPrefixL : List Char → List Char → Bool
  | [], _ => true
  | _ :: _, [] => false
  | a :: as, b :: bs => a == b && isPrefixL as bs

/-- Character-list substring test (helper for the claim's name heuristic). -/
def isInfixL (t : List Char) : List Char → Bool
  | [] => t.isEmpty
  | c :: rest => isPrefixL t (c :: rest) || isInfixL t rest

/-- The identifier-suggestive tokens named by the spec for claim C1. -/
def idTokens : List String := ["id", "no", "number", "key", "code", "serial"]

/-- Does a column name contain an identifier-suggestive token?  This is the
name heuristic that the SPEC's useless-column rule gates on; the code in
`_remove_useless_columns` never consults it. -/
def containsIdToken (s : String) : Bool :=
  idTokens.any (fun t => isInfixL t.toList s.toList)

/-- 21 numeric cells with 20 distinct values (the last value repeats). -/
def priceVals : List Value :=
  [Value.num 1, Value.num 2, Value.num 3, Value.num 4,
   Value.num 5, Value.num 6, Value.num 7, Value.num 8,
   Value.num 9, Value.num 10, Value.num 11, Value.num 12,
   Value.num 13, Value.num 14, Value.num 15, Value.num 16,
   Value.num 17, Value.num 18, Value.num 19, Value.num 20,
   Value.num 20]

/-- A column named `price`: no identifier token, cardinality ratio 20/21. -/
def priceCol : Col :=
  { name := "price", dtype := Dtype.numeric, values := priceVals }

/-- The 21-row single-column frame used to separate the code's rule from the
claim's rule: `price` has cardinality ratio 20/21, strictly between 0.95
and 1, and its name contains no identifier token. -/
def dfC1 : Df := { nrows := 21, cols := [priceCol] }

/-! ## Cleaning pipeline (`src/backend/cleaning.py`) -/

/-- The non-missing values of a series, in row order (`Series.dropna()`). -/
def dropnaVals (vs : List Value) : List Value :=
  vs.filter (fun v => !(isNa v))

/-- `janitor.clean_names` on one character: lowercase letters and digits and
underscore survive, uppercase is lowercased, everything else becomes an
underscore.  (Models the janitor library's canonical snake-case cleaning.) -/
def cleanChar (c : Char) : Char :=
  if 65 ≤ c.toNat ∧ c.toNat ≤ 90 then Char.ofNat (c.toNat + 32)
  else if (97 ≤ c.toNat ∧ c.toNat ≤ 122) ∨ (48 ≤ c.toNat ∧ c.toNat ≤ 57) ∨
      c.toNat = 95 then c
  else '_'

/-- `janitor.clean_names` on one column name. -/
def cleanName (s : String) : String :=
  String.mk (s.data.map cleanChar)

/-- Step 1 of `clean_data`: `df.clean_names()`. -/
def cleanNamesDf (df : Df) : Df :=
  { df with cols := df.cols.map (fun c => { c with name := cleanName c.name }) }

/-- The full row at index `i` (one cell per column, in column order). -/
def rowAt (df : Df) (i : Nat) : List Value :=
  df.cols.map (fun c => c.values.getD i Value.na)

/-- Is row `i` the first occurrence of its value tuple?  `duplicated()` with
the default `keep=first` marks exactly the non-first occurrences. -/
def isFirstOcc (df : Df) (i : Nat) : Bool :=
  !((List.range i).any (fun j => rowAt df j == rowAt df i))

/-- Indices of the rows `drop_duplicates` keeps, in order. -/
def keepIdxs (df : Df) : List Nat :=
  (List.range df.nrows).filter (isFirstOcc df)

/-- `int(df.duplicated().sum())`: the number of non-first-occurrence rows. -/
def dupRowCount (df : Df) : Nat :=
  df.nrows - (keepIdxs df).length

/-- `df.drop_duplicates()`: keep only first occurrences, preserving order. -/
def dropDupRows (df : Df) : Df :=
  { nrows := (keepIdxs df).length
    cols := df.cols.map (fun c =>
      { c with values := (keepIdxs df).map (fun i => c.values.getD i Value.na) }) }

/-- `src/backend/cleaning.py::_is_likely_date_column`.  `parse` models
`pd.to_datetime` on one cell (`some` = parses, `none` = raises), `σ` models
the unseeded random `Series.sample(n=min(len, 20))` draw.  The float test
`success/len(sample) > 0.7` is written as `10*success > 7*len(sample)`. -/
def _is_likely_date_column (parse : Value → Option ℤ) (σ : List Value → List Value)
    (c : Col) : Bool :=
  if c.dtype != Dtype.object then false
  else
    let sample := σ (dropnaVals c.values)
    if sample.isEmpty then false
    else 10 * sample.countP (fun v => (parse v).isSome) > 7 * sample.length

/-- Step 4 of `clean_data`: convert each object column that passes
`_is_likely_date_column` with `pd.to_datetime(..., errors=coerce)`:
unparseable cells (and missing cells) become NaT. -/
def convertDates (parse : Value → Option ℤ) (σ : List Value → List Value)
    (df : Df) : Df :=
  { df with cols := df.cols.map (fun c =>
      if (c.dtype == Dtype.object) && _is_likely_date_column parse σ c then
        { c with dtype := Dtype.datetime
                 values := c.values.map (fun v =>
                   match parse v with
                   | some d => Value.date d
                   | none => Value.na) }
      else c) }

/-- Count of missing cells in one column. -/
def countNa (vs : List Value) : Nat :=
  vs.countP isNa

/-- `int(df.isnull().sum().sum())`. -/
def missingCount (df : Df) : Nat :=
  (df.cols.map (fun c => countNa c.values)).sum

/-- The numeric payload of a cell, when there is one. -/
def toNum : Value → Option ℚ
  | Value.num q => some q
  | _ => none

/-- Insertion into a sorted list of rationals (helper for the median). -/
def insertQ (x : ℚ) : List ℚ → List ℚ
  | [] => [x]
  | y :: ys => if x ≤ y then x :: y :: ys else y :: insertQ x ys

/-- Insertion sort on rationals (helper for the median). -/
def sortQ (l : List ℚ) : List ℚ :=
  l.foldr insertQ []

/-- `Series.median()` over the non-missing values: middle element of the
sorted list, or the mean of the two middles; `none` models the NaN median
of an all-missing series. -/
def medianQ (l : List ℚ) : Option ℚ :=
  let s := sortQ l
  if s.length = 0 then none
  else if s.length % 2 = 1 then some (s.getD (s.length / 2) 0)
  else some ((s.getD (s.length / 2 - 1) 0 + s.getD (s.length / 2) 0) / 2)

/-- `df[col].median()` for a numeric column. -/
def medianOfVals (vs : List Value) : Option ℚ :=
  medianQ (vs.filterMap toNum)

/-- Total order used to model that `Series.mode()` returns its result sorted
ascending (so `mode()[0]` is the least value of maximal frequency). -/
def valueRank : Value → Nat
  | Value.na => 0
  | Value.num _ => 1
  | Value.str _ => 2
  | Value.date _ => 3

/-- Lexicographic order on character lists (models string sorting). -/
def charsLe : List Char → List Char → Bool
  | [], _ => true
  | _ :: _, [] => false
  | a :: as, b :: bs =>
    if a.toNat < b.toNat then true
    else if a.toNat = b.toNat then charsLe as bs
    else false

/-- The order `Series.mode()` sorts by, extended across constructors. -/
def valueLe (a b : Value) : Bool :=
  match a, b with
  | Value.num x, Value.num y => decide (x ≤ y)
  | Value.str x, Value.str y => charsLe x.data y.data
  | Value.date x, Value.date y => decide (x ≤ y)
  | _, _ => valueRank a ≤ valueRank b

/-- `Series.mode()[0]` when the mode exists: the least value (in `valueLe`
order) among the non-missing values of maximal frequency; `none` models
`mode()` being empty (all values missing). -/
def modeVal (vs : List Value) : Option Value :=
  let nn := dropnaVals vs
  let ds := dropDups [] nn
  match ds with
  | [] => none
  | _ :: _ =>
    let m := (ds.map (fun v => nn.count v)).foldl Nat.max 0
    match ds.filter (fun v => nn.count v == m) with
    | [] => none
    | c0 :: cs => some (cs.foldl (fun a v => if valueLe v a then v else a) c0)

/-- Numeric imputation: `df[col].fillna(df[col].median())`.  When the median
is NaN (all-missing column) the `fillna` is a no-op. -/
def fillNumeric (c : Col) : Col :=
  if c.values.any isNa then
    match medianOfVals c.values with
    | some m => { c with values := c.values.map (fun v => if isNa v then Value.num m else v) }
    | none => c
  else c

/-- Categorical/datetime imputation: `fillna(mode()[0])` guarded by
`if not mode_values.empty`. -/
def fillMode (c : Col) : Col :=
  if c.values.any isNa then
    match modeVal c.values with
    | some m => { c with values := c.values.map (fun v => if isNa v then m else v) }
    | none => c
  else c

/-- Step 5 of `clean_data`, one column: numeric columns take the median,
object/category and datetime columns take the mode. -/
def imputeCol (c : Col) : Col :=
  match c.dtype with
  | Dtype.numeric => fillNumeric c
  | Dtype.object => fillMode c
  | Dtype.category => fillMode c
  | Dtype.datetime => fillMode c

/-- Step 5 of `clean_data`: run only when there is at least one missing cell. -/
def imputeDf (df : Df) : Df :=
  if missingCount df > 0 then { df with cols := df.cols.map imputeCol } else df

/-- The cleaning log returned by `clean_data`. -/
structure CleanLog where
  useless_columns_removed : List String
  duplicates_removed : Nat
  missing_values_filled : Nat
deriving DecidableEq, Repr

/-- Steps 1-3 of `clean_data`: `df.clean_names()`, then
`_remove_useless_columns`, then `drop_duplicates` (run only when
`duplicated().sum() > 0`). -/
def cleanStage3 (df : Df) : Df :=
  let df2 := _remove_useless_columns (cleanNamesDf df)
  if dupRowCount df2 > 0 then dropDupRows df2 else df2

/-- Steps 1-4 of `clean_data`: `cleanStage3` followed by the datetime
conversion.  This is the frame on which step 5 computes its missing-value
count and its imputation statistics (medians/modes). -/
def preImpute (parse : Value → Option ℤ) (σ : List Value → List Value)
    (df : Df) : Df :=
  convertDates parse σ (cleanStage3 df)

/-- `src/backend/cleaning.py::clean_data`: clean names, drop useless columns,
drop duplicate rows (only when some exist), convert likely date columns,
impute.  The log records the useless names of step 2, the duplicate count
of step 3 and the missing count of step 5 (taken before filling).  `parse`
and `σ` are the library primitives (see the module comment); two runs of
the Python function differ exactly in `σ`, the unseeded random sample. -/
def clean_data (parse : Value → Option ℤ) (σ : List Value → List Value)
    (df : Df) : Df × CleanLog :=
  (imputeDf (preImpute parse σ df),
   { useless_columns_removed := uselessNames (cleanNamesDf df)
     duplicates_removed := dupRowCount (_remove_useless_columns (cleanNamesDf df))
     missing_values_filled := missingCount (preImpute parse σ df) })

/-- Contract of the unseeded `Series.sample(n=min(len, 20))` call: the draw
has exactly `min len 20` elements and is a sub-multiset of the series. -/
def SamplerOK (σ : List Value → List Value) : Prop :=
  ∀ vs : List Value, (σ vs).length = min vs.length 20 ∧ List.Subperm (σ vs) vs

/-- One concrete valid sampler: the first `min len 20` values. -/
def sampleTake (vs : List Value) : List Value :=
  vs.take 20

/-- Another concrete valid sampler: the last `min len 20` values. -/
def sampleDrop (vs : List Value) : List Value :=
  vs.drop (vs.length - 20)

/-- Models `pd.to_datetime` on the cell payloads used in the concrete
frames below: the literal `2020-01-01` parses (to day 18262), everything
else raises. -/
def parseModel : Value → Option ℤ
  | Value.str "2020-01-01" => some 18262
  | _ => none

/-! ## Measures and feature engineering (`src/backend/engineering.py`) -/

/-- Look up a column by name (`df[name]`; `none` models the KeyError). -/
def findCol (df : Df) (name : String) : Option Col :=
  df.cols.find? (fun c => c.name == name)

/-- `df_out[name] = values`: overwrite the column when the name exists,
append it otherwise. -/
def setCol (df : Df) (name : String) (dt : Dtype) (vs : List Value) : Df :=
  if df.cols.any (fun c => c.name == name) then
    { df with cols := df.cols.map (fun c =>
        if c.name == name then { name := name, dtype := dt, values := vs } else c) }
  else
    { df with cols := df.cols ++ [{ name := name, dtype := dt, values := vs }] }

/-- `Series.sum()`: sums the numeric cells, skipping missing ones (an
all-missing or empty series sums to 0, as in pandas). -/
def sumV (vs : List Value) : ℚ :=
  (vs.filterMap toNum).sum

/-- `Series.mean()`: mean of the non-missing numeric cells; NaN (modelled
`na`) when there are none. -/
def meanVal (vs : List Value) : Value :=
  match vs.filterMap toNum with
  | [] => Value.na
  | q :: qs => Value.num ((q :: qs).sum / (q :: qs).length)

/-- `src/backend/engineering.py::create_automated_measures`: `Sum of`/
`Average of` for every numeric column with more than one distinct value,
then `Count of` (the distinct count) for every object/category column. -/
def create_automated_measures (df : Df) : List (String × Value) :=
  let numeric_cols := df.cols.filter (fun c => c.dtype == Dtype.numeric)
  let categorical_cols := df.cols.filter (fun c =>
    c.dtype == Dtype.object || c.dtype == Dtype.category)
  ((numeric_cols.filter (fun c => nuniqueV c.values > 1)).flatMap (fun c =>
      [("Sum of " ++ c.name, Value.num (sumV c.values)),
       ("Average of " ++ c.name, meanVal c.values)])) ++
    categorical_cols.map (fun c => ("Count of " ++ c.name, Value.num (nuniqueV c.values)))

/-- Elementwise `+` of two pandas series: numbers add, NaN propagates,
object strings concatenate, anything else raises (TypeError). -/
def addV : Value → Value → Except Unit Value
  | Value.num x, Value.num y => Except.ok (Value.num (x + y))
  | Value.na, Value.num _ => Except.ok Value.na
  | Value.num _, Value.na => Except.ok Value.na
  | Value.na, Value.na => Except.ok Value.na
  | Value.str x, Value.str y => Except.ok (Value.str (x ++ y))
  | _, _ => Except.error ()

/-- Elementwise numeric-only binary op (`-`, `*`, `/`): numbers combine,
NaN propagates, anything else raises (TypeError). -/
def numOpV (f : ℚ → ℚ → ℚ) : Value → Value → Except Unit Value
  | Value.num x, Value.num y => Except.ok (Value.num (f x y))
  | Value.na, Value.num _ => Except.ok Value.na
  | Value.num _, Value.na => Except.ok Value.na
  | Value.na, Value.na => Except.ok Value.na
  | _, _ => Except.error ()

/-- Elementwise unary numeric op (scalar add, square, clipped root, log):
numbers map, NaN propagates, anything else raises (TypeError). -/
def numMapV (f : ℚ → ℚ) : Value → Except Unit Value
  | Value.num x => Except.ok (Value.num (f x))
  | Value.na => Except.ok Value.na
  | _ => Except.error ()

/-- Apply an elementwise binary op across two whole series; any elementwise
failure fails the series op, as one bad pair raises for the whole
expression in pandas. -/
def zipSeries (f : Value → Value → Except Unit Value) :
    List Value → List Value → Except Unit (List Value)
  | [], _ => Except.ok []
  | _ :: _, [] => Except.ok []
  | a :: as, b :: bs => do
    let v ← f a b
    let rest ← zipSeries f as bs
    Except.ok (v :: rest)

/-- Apply an elementwise unary op across a whole series. -/
def mapSeries (f : Value → Except Unit Value) :
    List Value → Except Unit (List Value)
  | [] => Except.ok []
  | a :: as => do
    let v ← f a
    let rest ← mapSeries f as
    Except.ok (v :: rest)

/-- Dtype pandas infers for a freshly assigned result column. -/
def inferDtype (vs : List Value) : Dtype :=
  if vs.all (fun v => isNa v || (toNum v).isSome) then Dtype.numeric
  else Dtype.object

/-- A required dictionary key: `definition[k]` (`error` models the KeyError
the `try` block catches). -/
def reqKey (defn : String → Option String) (k : String) : Except Unit String :=
  match defn k with
  | some v => Except.ok v
  | none => Except.error ()

/-- A required column: `df_out[name]` (`error` models the KeyError). -/
def reqCol (df : Df) (name : String) : Except Unit Col :=
  match findCol df name with
  | some c => Except.ok c
  | none => Except.error ()

/-- Division with the epsilon guard of the `divide` branch:
`df_out[col1] / (df_out[col2] + 1e-6)`.  (Rationals carry no infinity: a
denominator that is exactly 0 after the epsilon — only possible when a cell
equals -1e-6 — is out of the model's scope; the claims only exercise
nonzero denominators.) -/
def divPair (a b : Value) : Except Unit Value :=
  match numMapV (fun y => y + 1 / 1000000) b with
  | Except.ok b2 => numOpV (fun x y => x / y) a b2
  | Except.error _ => Except.error ()

/-- The body of the `try` block of
`src/backend/engineering.py::create_custom_feature`, factored as the pair
(new column name, new column values) each branch computes before the single
assignment `df_out[new_col_name] = series`.  `logF` and `sqrtF` model
`np.log` and `np.sqrt` on one float.  `ok none` models branches that fall
through without assigning (unknown `op`, unknown `type`): they return
`df_out`, a copy equal to the input. -/
def buildFeature (logF sqrtF : ℚ → ℚ) (df : Df)
    (defn : String → Option String) : Except Unit (Option (String × List Value)) :=
  if defn "type" == some "arithmetic" then do
    let col1 ← reqKey defn "col1"
    let col2 ← reqKey defn "col2"
    let op ← reqKey defn "op"
    let new_col_name := col1 ++ "_" ++ op ++ "_" ++ col2
    if op == "add" then do
      let c1 ← reqCol df col1
      let c2 ← reqCol df col2
      let vs ← zipSeries addV c1.values c2.values
      Except.ok (some (new_col_name, vs))
    else if op == "subtract" then do
      let c1 ← reqCol df col1
      let c2 ← reqCol df col2
      let vs ← zipSeries (numOpV (fun x y => x - y)) c1.values c2.values
      Except.ok (some (new_col_name, vs))
    else if op == "multiply" then do
      let c1 ← reqCol df col1
      let c2 ← reqCol df col2
      let vs ← zipSeries (numOpV (fun x y => x * y)) c1.values c2.values
      Except.ok (some (new_col_name, vs))
    else if op == "divide" then do
      let c1 ← reqCol df col1
      let c2 ← reqCol df col2
      let vs ← zipSeries divPair c1.values c2.values
      Except.ok (some (new_col_name, vs))
    else Except.ok none
  else if defn "type" == some "unary" then do
    let col ← reqKey defn "col"
    let op ← reqKey defn "op"
    let new_col_name := op ++ "_of_" ++ col
    if op == "log" then do
      let c ← reqCol df col
      let vs ← mapSeries (numMapV (fun x => logF (x + 1))) c.values
      Except.ok (some (new_col_name, vs))
    else if op == "square" then do
      let c ← reqCol df col
      let vs ← mapSeries (numMapV (fun x => x ^ 2)) c.values
      Except.ok (some (new_col_name, vs))
    else if op == "sqrt" then do
      let c ← reqCol df col
      let vs ← mapSeries (numMapV (fun x => sqrtF (max x 0))) c.values
      Except.ok (some (new_col_name, vs))
    else if op == "average" then do
      let c ← reqCol df col
      -- `Series.mean()` raises TypeError on non-numeric data
      if c.values.all (fun v => isNa v || (toNum v).isSome) then
        Except.ok (some (new_col_name, c.values.map (fun _ => meanVal c.values)))
      else Except.error ()
    else Except.ok none
  else if defn "type" == some "categorical_count" then do
    let col ← reqKey defn "col"
    let new_col_name := col ++ "_counts"
    let c ← reqCol df col
    let nn := dropnaVals c.values
    let vs := c.values.map (fun v =>
      if isNa v then Value.na else Value.num (nn.count v))
    Except.ok (some (new_col_name, vs))
  else Except.ok none

/-- `src/backend/engineering.py::create_custom_feature`: run the `try`
body and perform the assignment; the catch-all `except` prints and returns
the original frame. -/
def create_custom_feature (logF sqrtF : ℚ → ℚ) (df : Df)
    (defn : String → Option String) : Df :=
  match buildFeature logF sqrtF df defn with
  | Except.ok (some p) => setCol df p.1 (inferDtype p.2) p.2
  | Except.ok none => df
  | Except.error _ => df

/-- The definition dictionary `{type: arithmetic, col1, col2, op}`. -/
def arithDefn (col1 col2 op : String) : String → Option String :=
  fun k =>
    if k = "type" then some "arithmetic"
    else if k = "col1" then some col1
    else if k = "col2" then some col2
    else if k = "op" then some op
    else none

/-- The rows of the numeric sub-frame `df[numeric_cols]`, which
`StandardScaler().fit_transform` and `KMeans.fit_predict` consume. -/
def numericRows (df : Df) : List (List Value) :=
  let numeric := df.cols.filter (fun c => c.dtype == Dtype.numeric)
  (List.range df.nrows).map (fun i => numeric.map (fun c => c.values.getD i Value.na))

/-- Result of `perform_segmentation` seen by the caller: the returned frame
and the state of the frame object the caller passed in after the call
(the source assigns `df[Segment] = ...` on its argument without copying,
so the caller's object is mutated in place). -/
structure SegResult where
  ret : Df
  inputAfter : Df
deriving DecidableEq, Repr

/-- `src/backend/engineering.py::perform_segmentation`.  `fitPredict`
models the composite `KMeans(n_clusters, random_state=42,
n_init=10).fit_predict(scaler.fit_transform(df[numeric_cols]))`: one
integer label per row, in `0..n_clusters-1` (that contract is a hypothesis
of the theorems).  With no numeric columns the frame is returned unchanged
with an empty log. -/
def perform_segmentation (fitPredict : List (List Value) → List Nat)
    (df : Df) (n_clusters : Nat) : SegResult × List (String × Nat) :=
  let numeric := df.cols.filter (fun c => c.dtype == Dtype.numeric)
  if numeric.isEmpty then ({ ret := df, inputAfter := df }, [])
  else
    let labels := fitPredict (numericRows df)
    let df2 := setCol df "Segment" Dtype.category
      (labels.map (fun l : Nat => Value.num (l : ℚ)))
    ({ ret := df2, inputAfter := df2 }, [("segments_created", n_clusters)])

/-! ## Chart compatibility (`src/backend/utils.py`) -/

/-- `src/backend/utils.py::get_chart_compatible_columns`: the fixed chain of
chart-type tests; every branch returns a role map, the final `else` returns
the all-columns fallback. -/
def get_chart_compatible_columns (df : Df) (chart_type : String) :
    List (String × List String) :=
  let numeric_cols := (df.cols.filter (fun c => c.dtype == Dtype.numeric)).map
    (fun c => c.name)
  let categorical_cols := (df.cols.filter (fun c =>
    c.dtype == Dtype.object || c.dtype == Dtype.category)).map (fun c => c.name)
  let date_cols := (df.cols.filter (fun c => c.dtype == Dtype.datetime)).map
    (fun c => c.name)
  let all_cols := df.cols.map (fun c => c.name)
  if chart_type ∈ ["Line Chart", "Bar Chart", "Area Chart", "Histogram",
      "Box Plot", "Violin Chart"] then
    [("x", categorical_cols ++ date_cols ++ numeric_cols), ("y", numeric_cols)]
  else if chart_type = "Scatter Plot" then
    [("x", numeric_cols), ("y", numeric_cols), ("color", all_cols),
     ("size", numeric_cols)]
  else if chart_type = "3D Scatter Plot" then
    [("x", numeric_cols), ("y", numeric_cols), ("z", numeric_cols),
     ("color", all_cols)]
  else if chart_type = "Bubble Chart" then
    [("x", numeric_cols), ("y", numeric_cols), ("size", numeric_cols),
     ("color", all_cols)]
  else if chart_type ∈ ["Donut Chart", "Pie Chart", "Sunburst Chart",
      "Treemap", "Funnel Chart"] then
    [("names", categorical_cols ++ date_cols), ("values", numeric_cols),
     ("path", all_cols)]
  else if chart_type = "Heatmap" then
    [("numeric_only", numeric_cols)]
  else if chart_type = "Gantt Chart" then
    [("Task", categorical_cols), ("Start", date_cols), ("Finish", date_cols),
     ("Color", all_cols)]
  else if chart_type = "Gauge Chart" then
    [("value", numeric_cols), ("threshold", numeric_cols)]
  else if chart_type = "Waterfall Chart" then
    [("names", categorical_cols ++ date_cols), ("values", numeric_cols)]
  else
    [("all", all_cols)]

/-- The chart types matched before the all-columns fallback. -/
def knownChartTypes : List String :=
  ["Line Chart", "Bar Chart", "Area Chart", "Histogram", "Box Plot",
   "Violin Chart", "Scatter Plot", "3D Scatter Plot", "Bubble Chart",
   "Donut Chart", "Pie Chart", "Sunburst Chart", "Treemap", "Funnel Chart",
   "Heatmap", "Gantt Chart", "Gauge Chart", "Waterfall Chart"]

/-! ## Narrative generation (`src/backend/narratives.py`) -/

/-- A value of the chart-configuration dictionary: a string (column name or
chart type), a number, or a list of column names (the `path` role). -/
inductive CfgVal where
  | s : String → CfgVal
  | q : ℚ → CfgVal
  | strs : List String → CfgVal
deriving DecidableEq, Repr

/-- `chart_config.get(k)` followed by Python truthiness: a missing key and
the empty string are both falsy (`not x_col`). -/
def getStr (cfg : String → Option CfgVal) (k : String) : Option String :=
  match cfg k with
  | some (CfgVal.s v) => if v = "" then none else some v
  | _ => none

/-- The `names` column of the Pie family:
`chart_config.get(names) or (chart_config.get(path) and chart_config.get(path)[0])`. -/
def getNamesCol (cfg : String → Option CfgVal) : Option String :=
  match getStr cfg "names" with
  | some v => some v
  | none =>
    match cfg "path" with
    | some (CfgVal.strs (p :: _)) => if p = "" then none else some p
    | _ => none

/-- Strict lexicographic order on character lists. -/
def charsLt : List Char → List Char → Bool
  | [], [] => false
  | [], _ :: _ => true
  | _ :: _, [] => false
  | a :: as, b :: bs =>
    if a.toNat < b.toNat then true
    else if a.toNat = b.toNat then charsLt as bs
    else false

/-- Python `a > b` on two cells: numbers and dates compare, strings compare
lexicographically, any comparison against NaN is `False`, mixed types raise
(TypeError). -/
def pyGtV : Value → Value → Except Unit Bool
  | Value.num x, Value.num y => Except.ok (decide (y < x))
  | Value.str x, Value.str y => Except.ok (charsLt y.data x.data)
  | Value.date x, Value.date y => Except.ok (decide (y < x))
  | Value.na, Value.num _ => Except.ok false
  | Value.num _, Value.na => Except.ok false
  | Value.na, Value.str _ => Except.ok false
  | Value.str _, Value.na => Except.ok false
  | Value.na, Value.date _ => Except.ok false
  | Value.date _, Value.na => Except.ok false
  | Value.na, Value.na => Except.ok false
  | _, _ => Except.error ()

/-- Insertion into a list sorted by a Boolean order (generic helper). -/
def insertBy {α : Type} (le : α → α → Bool) (x : α) : List α → List α
  | [] => [x]
  | y :: ys => if le x y then x :: y :: ys else y :: insertBy le x ys

/-- Insertion sort by a Boolean order (generic helper). -/
def sortBy {α : Type} (le : α → α → Bool) (l : List α) : List α :=
  l.foldr (insertBy le) []

/-- The group keys of `df.groupby(x)`: the distinct non-missing values of
`x`, sorted ascending (groupby's default `sort=True` drops NaN keys). -/
def groupKeys (xs : List Value) : List Value :=
  sortBy valueLe (dropDups [] (dropnaVals xs))

/-- `df.groupby(x)[y].sum()`: per-key sum of the numeric `y` cells (NaN
skipped); raises (TypeError downstream) when `y` holds non-numeric data. -/
def groupSums (xs ys : List Value) : Except Unit (List (Value × ℚ)) :=
  if ys.all (fun v => isNa v || (toNum v).isSome) then
    Except.ok ((groupKeys xs).map (fun k =>
      (k, ((xs.zip ys).filterMap (fun p =>
        if p.1 == k then toNum p.2 else none)).sum)))
  else Except.error ()

/-- `grouped.idxmax()`: the first key attaining the maximal sum (raises on
an empty series). -/
def idxmaxG : List (Value × ℚ) → Except Unit Value
  | [] => Except.error ()
  | p :: ps => Except.ok ((ps.foldl (fun a r => if a.2 < r.2 then r else a) p).1)

/-- `grouped.idxmin()`: the first key attaining the minimal sum. -/
def idxminG : List (Value × ℚ) → Except Unit Value
  | [] => Except.error ()
  | p :: ps => Except.ok ((ps.foldl (fun a r => if r.2 < a.2 then r else a) p).1)

/-- `grouped.max()` for a non-empty grouped sum list. -/
def maxSumG : List (Value × ℚ) → ℚ
  | [] => 0
  | p :: ps => ps.foldl (fun a r => max a r.2) p.2

/-- Funnel sorting order: by the `values` cell, descending, NaN last
(models `sort_values(by=values, ascending=False)`). -/
def beforeDesc (a b : Value × Value) : Bool :=
  match toNum a.2, toNum b.2 with
  | some x, some y => decide (y ≤ x)
  | some _, none => true
  | none, some _ => false
  | none, none => true

/-- The trend of a Line/Area chart. -/
inductive Trend where
  | up : Trend
  | down : Trend
  | stable : Trend
deriving DecidableEq, Repr

/-- One return site of `generate_narrative`, with the data interpolated
into its template sentence.  `Option ℚ` payloads model float statistics
that can be non-finite (NaN/inf is `none`, and is rendered as `nan`/`inf`
inside the sentence rather than raising). -/
inductive Narr where
  | notEnoughCats : Narr
  | barMaxMin : Value → Value → Narr
  | notEnoughPoints : Narr
  | trendOut : String → Trend → Narr
  | axesMissing : Narr
  | corrOut : String → String → ℚ → Narr
  | noCategories : Narr
  | pieLargest : Value → Option ℚ → Narr
  | funnelOut : Value → Value → Option ℚ → Narr
  | boxDescription : String → String → Narr
  | heatmapText : Narr
  | histMissing : Narr
  | histText : String → Narr
  | ganttText : Narr
  | gaugeOut : Option ℚ → Bool → ℚ → Narr
  | waterfallText : Narr
  | genericText : Narr
  | errorFallback : Narr
deriving DecidableEq, Repr

/-- The guard/fallback sentences of `generate_narrative`: the return sites
that interpolate no computed statistic.  Every other constructor renders a
statistic into its sentence. -/
def isFallbackNarr : Narr → Bool
  | Narr.notEnoughCats => true
  | Narr.notEnoughPoints => true
  | Narr.axesMissing => true
  | Narr.noCategories => true
  | Narr.histMissing => true
  | Narr.errorFallback => true
  | _ => false

/-- The gauge branch: resolve `value` (a number, or a column name whose
first cell is read) and `threshold` (default 80); a non-float current value
or threshold makes the `:.1f` format or the comparison raise. -/
def gaugeResolve (cfg : String → Option CfgVal) (df : Df) :
    Except Unit (Option ℚ × ℚ) := do
  let current : Option ℚ ←
    match cfg "value" with
    | some (CfgVal.s name) =>
      (match findCol df name with
       | some c =>
         if df.nrows > 0 then
           (match c.values.getD 0 Value.na with
            | Value.num q => Except.ok (some q)
            | Value.na => Except.ok none
            | _ => Except.error ())
         else Except.ok (some 0)
       | none => Except.error ())
    | some (CfgVal.q q) => Except.ok (some q)
    | some _ => Except.error ()
    | none => Except.ok (some 0)
  let threshold : ℚ ←
    match cfg "threshold" with
    | some (CfgVal.q t) => Except.ok t
    | none => Except.ok 80
    | some _ => Except.error ()
  Except.ok (current, threshold)

/-- The body of the `try` block of
`src/backend/narratives.py::generate_narrative`, one arm per chart family.
`corrF` models `Series.corr` (a library call).  Any `Except.error` models a
raised exception that the enclosing `except` turns into the universal
fallback. -/
def tryNarrative (corrF : List Value → List Value → ℚ)
    (cfg : String → Option CfgVal) (df : Df) : Except Unit Narr :=
  let chart_type := match cfg "type" with | some (CfgVal.s v) => v | _ => ""
  if chart_type = "Bar Chart" then
    match getStr cfg "x", getStr cfg "y" with
    | some x, some y => do
      let cx ← reqCol df x
      if nuniqueV cx.values < 2 then Except.ok Narr.notEnoughCats
      else do
        let cy ← reqCol df y
        let g ← groupSums cx.values cy.values
        let mx ← idxmaxG g
        let mn ← idxminG g
        Except.ok (Narr.barMaxMin mx mn)
    | _, _ => Except.ok Narr.notEnoughCats
  else if chart_type = "Line Chart" ∨ chart_type = "Area Chart" then
    match getStr cfg "x", getStr cfg "y" with
    | some _, some y =>
      if df.nrows < 2 then Except.ok Narr.notEnoughPoints
      else do
        let cy ← reqCol df y
        let start_val := cy.values.getD 0 Value.na
        let end_val := cy.values.getD (df.nrows - 1) Value.na
        let gt1 ← pyGtV end_val start_val
        if gt1 then Except.ok (Narr.trendOut y Trend.up)
        else do
          let gt2 ← pyGtV start_val end_val
          if gt2 then Except.ok (Narr.trendOut y Trend.down)
          else Except.ok (Narr.trendOut y Trend.stable)
    | _, _ => Except.ok Narr.notEnoughPoints
  else if chart_type = "Scatter Plot" ∨ chart_type = "3D Scatter Plot" ∨
      chart_type = "Bubble Chart" then
    match getStr cfg "x", getStr cfg "y" with
    | some x, some y => do
      let cx ← reqCol df x
      let cy ← reqCol df y
      Except.ok (Narr.corrOut x y (corrF cx.values cy.values))
    | _, _ => Except.ok Narr.axesMissing
  else if chart_type = "Donut Chart" ∨ chart_type = "Pie Chart" ∨
      chart_type = "Treemap" ∨ chart_type = "Sunburst Chart" then
    match getNamesCol cfg, getStr cfg "values" with
    | some names, some valuesCol => do
      let cn ← reqCol df names
      if nuniqueV cn.values < 1 then Except.ok Narr.noCategories
      else do
        let cv ← reqCol df valuesCol
        let g ← groupSums cn.values cv.values
        let largest ← idxmaxG g
        let total := (g.map (fun p => p.2)).sum
        let pct := if total = 0 then none else some (maxSumG g / total * 100)
        Except.ok (Narr.pieLargest largest pct)
    | _, _ => Except.ok Narr.noCategories
  else if chart_type = "Funnel Chart" then
    match getStr cfg "names", getStr cfg "values" with
    | some names, some valuesCol => do
      let cn ← reqCol df names
      if nuniqueV cn.values < 1 then Except.ok Narr.noCategories
      else do
        let cv ← reqCol df valuesCol
        let sorted := sortBy beforeDesc (cn.values.zip cv.values)
        let first := sorted.getD 0 (Value.na, Value.na)
        let last := sorted.getD (sorted.length - 1) (Value.na, Value.na)
        let rate : Option ℚ ←
          match first.2 with
          | Value.num q =>
            if 0 < q then
              (match last.2 with
               | Value.num f => Except.ok (some (f / q * 100))
               | Value.na => Except.ok none
               | _ => Except.error ())
            else Except.ok (some 0)
          | Value.na => Except.ok (some 0)
          | _ => Except.error ()
        Except.ok (Narr.funnelOut first.1 last.1 rate)
    | _, _ => Except.ok Narr.noCategories
  else if chart_type = "Box Plot" ∨ chart_type = "Violin Chart" then
    match getStr cfg "x", getStr cfg "y" with
    | some x, some y => Except.ok (Narr.boxDescription x y)
    | _, _ => Except.ok Narr.axesMissing
  else if chart_type = "Heatmap" then Except.ok Narr.heatmapText
  else if chart_type = "Histogram" then
    match getStr cfg "x" with
    | some x => Except.ok (Narr.histText x)
    | none => Except.ok Narr.histMissing
  else if chart_type = "Gantt Chart" then Except.ok Narr.ganttText
  else if chart_type = "Gauge Chart" then do
    let p ← gaugeResolve cfg df
    let above :=
      match p.1 with
      | some q => decide (p.2 < q)
      | none => false
    Except.ok (Narr.gaugeOut p.1 above p.2)
  else if chart_type = "Waterfall Chart" then Except.ok Narr.waterfallText
  else Except.ok Narr.genericText

/-- `src/backend/narratives.py::generate_narrative`: the `try` body with
the catch-all `except` mapped to the universal fallback sentence. -/
def generate_narrative (corrF : List Value → List Value → ℚ)
    (cfg : String → Option CfgVal) (df : Df) : Narr :=
  match tryNarrative corrF cfg df with
  | Except.ok n => n
  | Except.error _ => Narr.errorFallback

/-! ## Concrete frames and configurations exercised by the claims -/

/-- A numeric column that is entirely missing: 3 rows `[NaN, NaN, NaN]`. -/
def dfC2 : Df :=
  { nrows := 3
    cols := [{ name := "a", dtype := Dtype.numeric
               values := [Value.num 1, Value.num 1, Value.num 2] },
             { name := "b", dtype := Dtype.numeric
               values := [Value.na, Value.na, Value.na] }] }

/-- The 15 distinct category labels of the second column of `dfC3`. -/
def grpVals : List Value :=
  [Value.str "b0", Value.str "b1", Value.str "b2", Value.str "b3",
   Value.str "b4", Value.str "b5", Value.str "b6", Value.str "b7",
   Value.str "b8", Value.str "b9", Value.str "b10", Value.str "b11",
   Value.str "b12", Value.str "b13", Value.str "b14"]

/-- 30 object cells: 15 parseable date strings then 15 non-dates, so a
20-element sample from the front parses at 75 percent and a 20-element
sample from the back parses at 25 percent — on opposite sides of the 0.7
threshold of `_is_likely_date_column`. -/
def whenVals : List Value :=
  List.replicate 15 (Value.str "2020-01-01") ++ List.replicate 15 (Value.str "x")

/-- A 30-row frame on which two valid random samples classify the `when`
column differently (no duplicate rows, no useless columns, more than 20
non-missing values in the object column). -/
def dfC3 : Df :=
  { nrows := 30
    cols := [{ name := "when", dtype := Dtype.object, values := whenVals },
             { name := "grp", dtype := Dtype.object, values := grpVals ++ grpVals }] }

/-- A frame whose only missing cell is imputed to the median 2, which makes
rows 0 and 1 collide: the cleaned output contains a duplicate row. -/
def dfC4 : Df :=
  { nrows := 4
    cols := [{ name := "a", dtype := Dtype.numeric
               values := [Value.num 1, Value.num 1, Value.num 5, Value.num 6] },
             { name := "b", dtype := Dtype.numeric
               values := [Value.na, Value.num 2, Value.num 2, Value.num 2] }] }

/-- A frame that is a fixed point of cleaning: no duplicates, no missing
values, no useless columns, no object columns. -/
def dfC4W : Df :=
  { nrows := 3
    cols := [{ name := "a", dtype := Dtype.numeric
               values := [Value.num 1, Value.num 1, Value.num 2] },
             { name := "b", dtype := Dtype.numeric
               values := [Value.num 1, Value.num 2, Value.num 2] }] }

/-- A one-column frame for the segmentation claims. -/
def dfC7 : Df :=
  { nrows := 2
    cols := [{ name := "v", dtype := Dtype.numeric
               values := [Value.num 1, Value.num 10] }] }

/-- Models `KMeans(n_clusters=2, random_state=42, n_init=10).fit_predict`
composed with the scaler on the two rows of `dfC7`: one integer label per
row, each in `0..1`. -/
def fitC7 : List (List Value) → List Nat :=
  fun _ => [0, 1]

/-- `a=[10], b=[0]`: the divide-by-zero frame of the spec's test clause. -/
def dfC8 : Df :=
  { nrows := 1
    cols := [{ name := "a", dtype := Dtype.numeric, values := [Value.num 10] },
             { name := "b", dtype := Dtype.numeric, values := [Value.num 0] }] }

/-- A categorical column with a single distinct value. -/
def dfC9 : Df :=
  { nrows := 2
    cols := [{ name := "city", dtype := Dtype.object
               values := [Value.str "x", Value.str "x"] }] }

/-- A frame with one column of every classification. -/
def dfC10 : Df :=
  { nrows := 1
    cols := [{ name := "n", dtype := Dtype.numeric, values := [Value.num 1] },
             { name := "c", dtype := Dtype.object, values := [Value.str "a"] },
             { name := "d", dtype := Dtype.datetime, values := [Value.date 0] }] }

/-- A pie chart whose `values` column sums to zero. -/
def dfC6 : Df :=
  { nrows := 2
    cols := [{ name := "cat", dtype := Dtype.object
               values := [Value.str "a", Value.str "b"] },
             { name := "amt", dtype := Dtype.numeric
               values := [Value.num 0, Value.num 0] }] }

/-- The pie-chart configuration over `dfC6`. -/
def pieCfg : String → Option CfgVal :=
  fun k =>
    if k = "type" then some (CfgVal.s "Pie Chart")
    else if k = "names" then some (CfgVal.s "cat")
    else if k = "values" then some (CfgVal.s "amt")
    else none

/-- A bar chart whose x column has a single distinct value. -/
def dfC6bar : Df :=
  { nrows := 2
    cols := [{ name := "cat", dtype := Dtype.object
               values := [Value.str "a", Value.str "a"] },
             { name := "amt", dtype := Dtype.numeric
               values := [Value.num 1, Value.num 2] }] }

/-- The bar-chart configuration over `dfC6bar`. -/
def barCfg : String → Option CfgVal :=
  fun k =>
    if k = "type" then some (CfgVal.s "Bar Chart")
    else if k = "x" then some (CfgVal.s "cat")
    else if k = "y" then some (CfgVal.s "amt")
    else none

/-- An arbitrary correlation stand-in (the pie and bar branches never call
`Series.corr`). -/
def corrF0 : List Value → List Value → ℚ :=
  fun _ _ => 0

/-- A small frame whose object column has at most 20 non-missing values,
used to witness the determinism theorem. -/
def dfC3W : Df :=
  { nrows := 2
    cols := [{ name := "w", dtype := Dtype.object
               values := [Value.str "2020-01-01", Value.str "x"] }] }

/-! ## Theorems -/

/-- For positive `n`, the float test `19/20 < a/n` matches the integer test
`19*n < 20*a`. -/
theorem ratioGtIff (a n : Nat) (hn : 0 < n) :
    ((19 : ℚ) / 20 < (a : ℚ) / (n : ℚ)) ↔ 19 * n < 20 * a := by
  rw [div_lt_div_iff₀ (by norm_num) (by exact_mod_cast hn)]
  constructor
  · intro h
    have h2 : (19 * n : ℚ) < (20 * a : ℚ) := by linarith
    exact_mod_cast h2
  · intro h
    have h2 : (19 * n : ℚ) < (20 * a : ℚ) := by exact_mod_cast h
    linarith

/-- The Boolean flag of `_remove_useless_columns` as a proposition. -/
theorem isUselessCol_iff (n : Nat) (c : Col) (hn : 0 < n) :
    isUselessCol n c = true ↔
      ((19 : ℚ) / 20 < (nuniqueV c.values : ℚ) / (n : ℚ) ∨ nuniqueV c.values = n) := by
  simp only [isUselessCol, Bool.or_eq_true, decide_eq_true_eq, beq_iff_eq,
    ratioGtIff _ _ hn, gt_iff_lt]

/-- C1 (amended): a column of a frame with distinct column names and at
least one row is flagged (and dropped) by `_remove_useless_columns` if and
only if its cardinality ratio exceeds 0.95 or its distinct count equals the
row count — the column name plays no role in the code's rule. -/
theorem C1_useless_column_rule (df : Df) (c : Col) (hc : c ∈ df.cols)
    (hnd : df.names.Nodup) (hn : 0 < df.nrows) :
    c.name ∈ uselessNames df ↔
      ((19 : ℚ) / 20 < (nuniqueV c.values : ℚ) / (df.nrows : ℚ) ∨
        nuniqueV c.values = df.nrows) := by
  rw [← isUselessCol_iff _ _ hn]
  unfold uselessNames
  constructor
  · intro h
    rcases List.mem_map.mp h with ⟨c2, hc2, hname⟩
    rcases List.mem_filter.mp hc2 with ⟨hc2mem, hc2flag⟩
    have : c2 = c := List.inj_on_of_nodup_map hnd hc2mem hc hname
    rwa [this] at hc2flag
  · intro h
    exact List.mem_map.mpr ⟨c, List.mem_filter.mpr ⟨hc, h⟩, rfl⟩

/-- C1 (witness): the amended rule applied to the concrete frame `dfC1`. -/
theorem C1_witness :
    priceCol ∈ dfC1.cols ∧ dfC1.names.Nodup ∧ 0 < dfC1.nrows ∧
      (priceCol.name ∈ uselessNames dfC1 ↔
        ((19 : ℚ) / 20 < (nuniqueV priceCol.values : ℚ) / (dfC1.nrows : ℚ) ∨
          nuniqueV priceCol.values = dfC1.nrows)) :=
  ⟨by decide, by decide, by decide,
    C1_useless_column_rule dfC1 priceCol (by decide) (by decide) (by decide)⟩

/-- C1 (counterexample): the column `price` contains no identifier token
and its cardinality ratio 20/21 lies strictly between 0.95 and 1, yet
`_remove_useless_columns` drops it — refuting the claim that such a column
is never dropped. -/
theorem C1_counterexample :
    uselessNames dfC1 = ["price"] ∧
    containsIdToken "price" = false ∧
    nuniqueV priceVals ≠ dfC1.nrows ∧
    (19 : ℚ) / 20 < (nuniqueV priceVals : ℚ) / (dfC1.nrows : ℚ) ∧
    (nuniqueV priceVals : ℚ) / (dfC1.nrows : ℚ) < 1 := by
  have h20 : nuniqueV priceVals = 20 := by decide
  have h21 : dfC1.nrows = 21 := rfl
  refine ⟨by decide, by decide, by decide, ?_, ?_⟩
  · rw [h20, h21]; norm_num
  · rw [h20, h21]; norm_num

/-- C10: `get_chart_compatible_columns` returns a non-empty role map for
every chart type and frame (in particular one holding a column of every
classification), and for a chart type outside the known table it returns
the all-columns fallback. -/
theorem C10_chart_compatibility (df : Df) (ct : String) :
    (((∃ c ∈ df.cols, c.dtype = Dtype.numeric) ∧
        (∃ c ∈ df.cols, c.dtype = Dtype.object ∨ c.dtype = Dtype.category) ∧
        (∃ c ∈ df.cols, c.dtype = Dtype.datetime)) →
      get_chart_compatible_columns df ct ≠ []) ∧
    (ct ∉ knownChartTypes →
      get_chart_compatible_columns df ct = [("all", df.cols.map (fun c => c.name))]) := by
  have hfall : ct ∉ knownChartTypes →
      get_chart_compatible_columns df ct = [("all", df.cols.map (fun c => c.name))] := by
    intro h
    simp only [knownChartTypes, List.mem_cons, List.not_mem_nil, or_false, not_or] at h
    obtain ⟨h1, h2, h3, h4, h5, h6, h7, h8, h9, h10, h11, h12, h13, h14, h15, h16,
      h17, h18⟩ := h
    simp [get_chart_compatible_columns, h1, h2, h3, h4, h5, h6, h7, h8, h9, h10,
      h11, h12, h13, h14, h15, h16, h17, h18]
  constructor
  · intro _
    by_cases hk : ct ∈ knownChartTypes
    · simp only [knownChartTypes, List.mem_cons, List.not_mem_nil, or_false] at hk
      rcases hk with rfl | rfl | rfl | rfl | rfl | rfl | rfl | rfl | rfl | rfl |
        rfl | rfl | rfl | rfl | rfl | rfl | rfl | rfl <;>
        simp [get_chart_compatible_columns]
    · rw [hfall hk]; simp
  · exact hfall

/-- C10 (witness): the resolver on a frame with one column of each
classification and the unknown chart type `Data Table`. -/
theorem C10_witness :
    ((∃ c ∈ dfC10.cols, c.dtype = Dtype.numeric) ∧
      (∃ c ∈ dfC10.cols, c.dtype = Dtype.object ∨ c.dtype = Dtype.category) ∧
      (∃ c ∈ dfC10.cols, c.dtype = Dtype.datetime)) ∧
    "Data Table" ∉ knownChartTypes ∧
    get_chart_compatible_columns dfC10 "Data Table" ≠ [] ∧
    get_chart_compatible_columns dfC10 "Data Table" =
      [("all", dfC10.cols.map (fun c => c.name))] :=
  ⟨by decide, by decide,
    (C10_chart_compatibility dfC10 "Data Table").1 (by decide),
    (C10_chart_compatibility dfC10 "Data Table").2 (by decide)⟩

/-- C5: `create_custom_feature` never raises — the embedding is a total
function whose catch-all maps every failure of the `try` body back to the
original frame — and its result is always either the original frame
unchanged or the frame with the one built column assigned. -/
theorem C5_custom_feature_error_policy (logF sqrtF : ℚ → ℚ) (df : Df)
    (defn : String → Option String) :
    (buildFeature logF sqrtF df defn = Except.error () →
      create_custom_feature logF sqrtF df defn = df) ∧
    (create_custom_feature logF sqrtF df defn = df ∨
      ∃ p : String × List Value,
        buildFeature logF sqrtF df defn = Except.ok (some p) ∧
        create_custom_feature logF sqrtF df defn = setCol df p.1 (inferDtype p.2) p.2) := by
  unfold create_custom_feature
  rcases hb : buildFeature logF sqrtF df defn with e | o
  · exact ⟨fun _ => rfl, Or.inl rfl⟩
  · rcases o with _ | p
    · exact ⟨fun hh => by simp at hh, Or.inl rfl⟩
    · exact ⟨fun hh => by simp at hh, Or.inr ⟨p, rfl, rfl⟩⟩

/-- C5 (witness): a definition referencing a missing column fails inside
the `try` body and the caller receives the original frame back. -/
theorem C5_witness :
    buildFeature (fun q => q) (fun q => q) dfC8 (arithDefn "zzz" "b" "add") =
      Except.error () ∧
    create_custom_feature (fun q => q) (fun q => q) dfC8 (arithDefn "zzz" "b" "add") =
      dfC8 :=
  ⟨rfl,
    (C5_custom_feature_error_policy (fun q => q) (fun q => q) dfC8
      (arithDefn "zzz" "b" "add")).1 rfl⟩

/-- C7 (amended): with at least one numeric column, `perform_segmentation`
returns the frame extended by exactly one categorical `Segment` column
holding one integer label in `0..k-1` per row — but it assigns that column
on its argument without copying, so the caller's input object is mutated in
place (the returned frame is the mutated input, not a fresh value). -/
theorem C7_segmentation_amended (fitPredict : List (List Value) → List Nat)
    (df : Df) (k : Nat)
    (hnum : ∃ c ∈ df.cols, c.dtype = Dtype.numeric)
    (hseg : ∀ c ∈ df.cols, c.name ≠ "Segment")
    (hlen : (fitPredict (numericRows df)).length = df.nrows)
    (hlab : ∀ l ∈ fitPredict (numericRows df), l < k) :
    (perform_segmentation fitPredict df k).1.ret =
      { df with cols := df.cols ++
          [{ name := "Segment", dtype := Dtype.category
             values := (fitPredict (numericRows df)).map (fun l : Nat => Value.num (l : ℚ)) }] } ∧
    (perform_segmentation fitPredict df k).1.inputAfter =
      (perform_segmentation fitPredict df k).1.ret ∧
    (perform_segmentation fitPredict df k).2 = [("segments_created", k)] ∧
    ((fitPredict (numericRows df)).map (fun l : Nat => Value.num (l : ℚ))).length = df.nrows ∧
    ∀ v ∈ (fitPredict (numericRows df)).map (fun l : Nat => Value.num (l : ℚ)),
      ∃ l : Nat, l < k ∧ v = Value.num (l : ℚ) := by
  have hne : (df.cols.filter (fun c => c.dtype == Dtype.numeric)).isEmpty = false := by
    rcases hnum with ⟨c, hcmem, hcdt⟩
    have hm : c ∈ df.cols.filter (fun c => c.dtype == Dtype.numeric) :=
      List.mem_filter.mpr ⟨hcmem, by simp [hcdt]⟩
    rcases hfl : df.cols.filter (fun c => c.dtype == Dtype.numeric) with _ | _
    · rw [hfl] at hm; cases hm
    · rw [hfl]; rfl
  have hany : (df.cols.any (fun c => c.name == "Segment")) = false := by
    rcases hfl : df.cols.any (fun c => c.name == "Segment") with _ | _
    · rfl
    · rcases List.any_eq_true.mp hfl with ⟨c, hcm, hcb⟩
      exact absurd (by simpa using hcb) (hseg c hcm)
  refine ⟨?_, ?_, ?_, ?_, ?_⟩
  · simp [perform_segmentation, hne, setCol, hany]
  · simp [perform_segmentation, hne]
  · simp [perform_segmentation, hne]
  · rw [List.length_map]; exact hlen
  · intro v hv
    rw [List.mem_map] at hv
    obtain ⟨a, ha, rfl⟩ := hv
    exact ⟨a, hlab a ha, rfl⟩

/-- C7 (witness): the amended statement applied to the concrete frame
`dfC7` with `k = 2`. -/
theorem C7_witness :
    (∃ c ∈ dfC7.cols, c.dtype = Dtype.numeric) ∧
    (∀ c ∈ dfC7.cols, c.name ≠ "Segment") ∧
    (fitC7 (numericRows dfC7)).length = dfC7.nrows ∧
    (∀ l ∈ fitC7 (numericRows dfC7), l < 2) ∧
    ((perform_segmentation fitC7 dfC7 2).1.ret =
      { dfC7 with cols := dfC7.cols ++
          [{ name := "Segment", dtype := Dtype.category
             values := (fitC7 (numericRows dfC7)).map (fun l : Nat => Value.num (l : ℚ)) }] } ∧
      (perform_segmentation fitC7 dfC7 2).1.inputAfter =
        (perform_segmentation fitC7 dfC7 2).1.ret ∧
      (perform_segmentation fitC7 dfC7 2).2 = [("segments_created", 2)] ∧
      ((fitC7 (numericRows dfC7)).map (fun l : Nat => Value.num (l : ℚ))).length = dfC7.nrows ∧
      ∀ v ∈ (fitC7 (numericRows dfC7)).map (fun l : Nat => Value.num (l : ℚ)),
        ∃ l : Nat, l < 2 ∧ v = Value.num (l : ℚ)) :=
  ⟨by decide, by decide, by decide, by decide,
    C7_segmentation_amended fitC7 dfC7 2 (by decide) (by decide) (by decide) (by decide)⟩

/-- C7 (counterexample): `perform_segmentation` (with the modelled KMeans
output on this frame, one label per row in `0..1`) mutates the frame
object the caller passed in: after the call the input holds a `Segment`
column, refuting the claim that the input dataset is left unchanged. -/
theorem C7_counterexample :
    ((fitC7 (numericRows dfC7)).length = dfC7.nrows ∧
      (∀ l ∈ fitC7 (numericRows dfC7), l < 2)) ∧
    (perform_segmentation fitC7 dfC7 2).1.inputAfter ≠ dfC7 :=
  ⟨⟨by decide, by decide⟩, by decide⟩

/-- Two strings with equal character data are equal. -/
theorem strExt {a b : String} (h : a.data = b.data) : a = b :=
  String.ext h

/-- The character data of an appended string. -/
theorem dataAppend (a b : String) : (a ++ b).data = a.data ++ b.data := rfl

/-- String append cancels on the left. -/
theorem strAppendCancelLeft {p a b : String} (h : p ++ a = p ++ b) : a = b := by
  apply strExt
  have h2 : p.data ++ a.data = p.data ++ b.data := by
    rw [← dataAppend, ← dataAppend, h]
  exact List.append_cancel_left h2

/-- Appends of strings with different head characters differ. -/
theorem strAppendNe (p q a b : String) (cp cq : Char) (tp tq : List Char)
    (hp : p.data = cp :: tp) (hq : q.data = cq :: tq) (hne : cp ≠ cq) :
    p ++ a ≠ q ++ b := by
  intro h
  have h2 : (p ++ a).data = (q ++ b).data := congrArg String.data h
  rw [dataAppend, dataAppend, hp, hq] at h2
  simp only [List.cons_append, List.cons.injEq] at h2
  exact hne h2.1

/-- C9 (amended): `create_automated_measures` emits `Sum of`/`Average of`
for every Numeric column with more than one distinct value; a Numeric
column with at most one distinct value contributes no measure; but every
Categorical column contributes `Count of` — also when it has a single
distinct value (only Numeric columns are skipped). -/
theorem C9_measures_amended (df : Df) (c : Col) (hc : c ∈ df.cols)
    (hnd : df.names.Nodup) :
    (c.dtype = Dtype.numeric → 1 < nuniqueV c.values →
      ("Sum of " ++ c.name, Value.num (sumV c.values)) ∈ create_automated_measures df ∧
      ("Average of " ++ c.name, meanVal c.values) ∈ create_automated_measures df) ∧
    (c.dtype = Dtype.numeric → nuniqueV c.values ≤ 1 →
      ∀ p ∈ create_automated_measures df,
        p.1 ≠ "Sum of " ++ c.name ∧ p.1 ≠ "Average of " ++ c.name) ∧
    ((c.dtype = Dtype.object ∨ c.dtype = Dtype.category) →
      ("Count of " ++ c.name, Value.num (nuniqueV c.values)) ∈
        create_automated_measures df) := by
  have hS : ("Sum of " : String).data = 'S' :: ['u', 'm', ' ', 'o', 'f', ' '] := rfl
  have hA : ("Average of " : String).data =
    'A' :: ['v', 'e', 'r', 'a', 'g', 'e', ' ', 'o', 'f', ' '] := rfl
  have hC : ("Count of " : String).data = 'C' :: ['o', 'u', 'n', 't', ' ', 'o', 'f', ' '] := rfl
  refine ⟨?_, ?_, ?_⟩
  · intro hdt hn
    have hmem : c ∈ (df.cols.filter (fun c => c.dtype == Dtype.numeric)).filter
        (fun c => nuniqueV c.values > 1) :=
      List.mem_filter.mpr ⟨List.mem_filter.mpr ⟨hc, by simp [hdt]⟩, by simp [hn]⟩
    constructor
    · exact List.mem_append_left _
        (List.mem_flatMap.mpr ⟨c, hmem, by simp⟩)
    · exact List.mem_append_left _
        (List.mem_flatMap.mpr ⟨c, hmem, by simp⟩)
  · intro hdt hn p hp
    unfold create_automated_measures at hp
    rcases List.mem_append.mp hp with h | h
    · rcases List.mem_flatMap.mp h with ⟨c2, hc2, hpair⟩
      rcases List.mem_filter.mp hc2 with ⟨hc2a, hcgt⟩
      rcases List.mem_filter.mp hc2a with ⟨hc2mem, _⟩
      have hgt : 1 < nuniqueV c2.values := by simpa using hcgt
      have hne2 : c2.name ≠ c.name := by
        intro hEq
        have hc2c : c2 = c := List.inj_on_of_nodup_map hnd hc2mem hc hEq
        rw [hc2c] at hgt
        omega
      simp only [List.mem_cons, List.not_mem_nil, or_false] at hpair
      rcases hpair with rfl | rfl
      · exact ⟨fun hh => hne2 (strAppendCancelLeft hh),
          strAppendNe _ _ _ _ 'S' 'A' _ _ hS hA (by decide)⟩
      · exact ⟨strAppendNe _ _ _ _ 'A' 'S' _ _ hA hS (by decide),
          fun hh => hne2 (strAppendCancelLeft hh)⟩
    · rcases List.mem_map.mp h with ⟨c3, _, rfl⟩
      exact ⟨strAppendNe _ _ _ _ 'C' 'S' _ _ hC hS (by decide),
        strAppendNe _ _ _ _ 'C' 'A' _ _ hC hA (by decide)⟩
  · intro hdt
    refine List.mem_append_right _ (List.mem_map.mpr ⟨c, List.mem_filter.mpr ⟨hc, ?_⟩, rfl⟩)
    rcases hdt with h | h <;> simp [h]

/-- C9 (witness): the amended statement at the two columns of `dfC6`: the
single-distinct numeric column `amt` produces no measure, the categorical
column `cat` produces its distinct count. -/
theorem C9_witness :
    (({ name := "amt", dtype := Dtype.numeric,
        values := [Value.num 0, Value.num 0] } : Col) ∈ dfC6.cols ∧
      dfC6.names.Nodup ∧
      nuniqueV [Value.num 0, Value.num 0] ≤ 1 ∧
      ∀ p ∈ create_automated_measures dfC6,
        p.1 ≠ "Sum of " ++ "amt" ∧ p.1 ≠ "Average of " ++ "amt") ∧
    (({ name := "cat", dtype := Dtype.object,
        values := [Value.str "a", Value.str "b"] } : Col) ∈ dfC6.cols ∧
      ("Count of " ++ "cat", Value.num (nuniqueV [Value.str "a", Value.str "b"])) ∈
        create_automated_measures dfC6) :=
  ⟨⟨by decide, by decide, by decide,
    (C9_measures_amended dfC6
      { name := "amt", dtype := Dtype.numeric, values := [Value.num 0, Value.num 0] }
      (by decide) (by decide)).2.1 rfl (by decide)⟩,
   ⟨by decide,
    (C9_measures_amended dfC6
      { name := "cat", dtype := Dtype.object, values := [Value.str "a", Value.str "b"] }
      (by decide) (by decide)).2.2 (Or.inl rfl)⟩⟩

/-- The arithmetic column name with `op = divide` merges into the claim's
literal shape. -/
theorem divideName (a b : String) :
    a ++ "_" ++ "divide" ++ "_" ++ b = a ++ "_divide_" ++ b := by
  apply strExt
  simp only [dataAppend, List.append_assoc]
  congr 1

/-- On two series of numbers-or-missing cells, the `divide` expression
succeeds and each paired numeric entry is `x / (y + 1e-6)`. -/
theorem zipSeries_divPair_ok (l1 : List Value) :
    ∀ l2 : List Value,
      (∀ v ∈ l1, isNa v = true ∨ ∃ q : ℚ, v = Value.num q) →
      (∀ v ∈ l2, isNa v = true ∨ ∃ q : ℚ, v = Value.num q) →
      ∃ vs, zipSeries divPair l1 l2 = Except.ok vs ∧
        ∀ i q r, l1.getD i Value.na = Value.num q →
          l2.getD i Value.na = Value.num r →
          vs.getD i Value.na = Value.num (q / (r + 1 / 1000000)) := by
  induction l1 with
  | nil =>
    intro l2 _ _
    refine ⟨[], rfl, ?_⟩
    intro i q r hq _
    rw [List.getD_nil] at hq
    cases hq
  | cons a as ih =>
    intro l2 h1 h2
    cases l2 with
    | nil =>
      refine ⟨[], rfl, ?_⟩
      intro i q r _ hr
      rw [List.getD_nil] at hr
      cases hr
    | cons b bs =>
      have ha := h1 a (List.mem_cons_self a as)
      have hb := h2 b (List.mem_cons_self b bs)
      obtain ⟨v0, hv0, hv0num⟩ : ∃ v0, divPair a b = Except.ok v0 ∧
          ∀ q r, a = Value.num q → b = Value.num r →
            v0 = Value.num (q / (r + 1 / 1000000)) := by
        rcases ha with hna | ⟨q, rfl⟩
        · have haa : a = Value.na := by cases a <;> simp [isNa] at hna ⊢
          subst haa
          rcases hb with hnb | ⟨r, rfl⟩
          · have hbb : b = Value.na := by cases b <;> simp [isNa] at hnb ⊢
            subst hbb
            exact ⟨Value.na, rfl, fun q r hq _ => by cases hq⟩
          · exact ⟨Value.na, rfl, fun q r hq _ => by cases hq⟩
        · rcases hb with hnb | ⟨r, rfl⟩
          · have hbb : b = Value.na := by cases b <;> simp [isNa] at hnb ⊢
            subst hbb
            exact ⟨Value.na, rfl, fun q2 r hq hr => by cases hr⟩
          · refine ⟨Value.num (q / (r + 1 / 1000000)), rfl, ?_⟩
            intro q2 r2 hq hr
            cases hq; cases hr; rfl
      obtain ⟨vs, hvs, hprop⟩ :=
        ih bs (fun v hv => h1 v (List.mem_cons_of_mem _ hv))
          (fun v hv => h2 v (List.mem_cons_of_mem _ hv))
      refine ⟨v0 :: vs, ?_, ?_⟩
      · simp [zipSeries, hv0, hvs, Except.instMonad, Except.bind]
      · intro i q r hq hr
        cases i with
        | zero =>
          rw [List.getD_cons_zero] at hq hr ⊢
          exact hv0num q r hq hr
        | succ n =>
          rw [List.getD_cons_succ] at hq hr ⊢
          exact hprop n q r hq hr

/-- C8: `create_custom_feature` with `op = divide` over number-valued
columns adds the column `{col1}_divide_{col2}` whose every paired entry is
`col1 / (col2 + 1e-6)`; at an exact zero denominator cell the epsilon makes
the denominator nonzero and the entry equals `1000000 * col1` (finite). -/
theorem C8_divide_epsilon (logF sqrtF : ℚ → ℚ) (df : Df) (col1 col2 : String)
    (c1 c2 : Col)
    (h1 : findCol df col1 = some c1) (h2 : findCol df col2 = some c2)
    (hv1 : ∀ v ∈ c1.values, isNa v = true ∨ ∃ q : ℚ, v = Value.num q)
    (hv2 : ∀ v ∈ c2.values, isNa v = true ∨ ∃ q : ℚ, v = Value.num q) :
    ∃ vs : List Value,
      zipSeries divPair c1.values c2.values = Except.ok vs ∧
      create_custom_feature logF sqrtF df (arithDefn col1 col2 "divide") =
        setCol df (col1 ++ "_divide_" ++ col2) (inferDtype vs) vs ∧
      (∀ i q r, c1.values.getD i Value.na = Value.num q →
        c2.values.getD i Value.na = Value.num r →
        vs.getD i Value.na = Value.num (q / (r + 1 / 1000000))) ∧
      (∀ i q, c1.values.getD i Value.na = Value.num q →
        c2.values.getD i Value.na = Value.num 0 →
        vs.getD i Value.na = Value.num (1000000 * q)) ∧
      ((0 : ℚ) + 1 / 1000000 ≠ 0) := by
  obtain ⟨vs, hvs, hprop⟩ := zipSeries_divPair_ok c1.values c2.values hv1 hv2
  refine ⟨vs, hvs, ?_, hprop, ?_, by norm_num⟩
  · rw [← divideName]
    simp [create_custom_feature, buildFeature, arithDefn, reqKey, reqCol, h1, h2, hvs,
      Except.instMonad, Except.bind]
  · intro i q hq hr0
    have h := hprop i q 0 hq hr0
    rw [h]
    congr 1
    rw [show ((0 : ℚ) + 1 / 1000000) = ((1000000 : ℚ))⁻¹ by norm_num,
      div_eq_mul_inv, inv_inv, mul_comm]

/-- C8 (witness): the divide feature on `a=[10]`, `b=[0]`. -/
theorem C8_witness :
    (findCol dfC8 "a" =
      some { name := "a", dtype := Dtype.numeric, values := [Value.num 10] }) ∧
    (findCol dfC8 "b" =
      some { name := "b", dtype := Dtype.numeric, values := [Value.num 0] }) ∧
    (∃ vs : List Value,
      zipSeries divPair [Value.num 10] [Value.num 0] = Except.ok vs ∧
      create_custom_feature (fun q => q) (fun q => q) dfC8 (arithDefn "a" "b" "divide") =
        setCol dfC8 ("a" ++ "_divide_" ++ "b") (inferDtype vs) vs ∧
      (∀ i q r, [Value.num 10].getD i Value.na = Value.num q →
        [Value.num 0].getD i Value.na = Value.num r →
        vs.getD i Value.na = Value.num (q / (r + 1 / 1000000))) ∧
      (∀ i q, [Value.num 10].getD i Value.na = Value.num q →
        [Value.num 0].getD i Value.na = Value.num 0 →
        vs.getD i Value.na = Value.num (1000000 * q)) ∧
      ((0 : ℚ) + 1 / 1000000 ≠ 0)) :=
  ⟨by decide, by decide,
    C8_divide_epsilon (fun q => q) (fun q => q) dfC8 "a" "b"
      { name := "a", dtype := Dtype.numeric, values := [Value.num 10] }
      { name := "b", dtype := Dtype.numeric, values := [Value.num 0] }
      (by decide) (by decide)
      (by intro v hv; rcases List.mem_singleton.mp hv with rfl; exact Or.inr ⟨10, rfl⟩)
      (by intro v hv; rcases List.mem_singleton.mp hv with rfl; exact Or.inr ⟨0, rfl⟩)⟩

/-- C9 (counterexample): a Categorical column with a single distinct value
still contributes a measure (`Count of city` with value 1), refuting that
every column with one distinct value is skipped. -/
theorem C9_counterexample :
    nuniqueV [Value.str "x", Value.str "x"] = 1 ∧
    create_automated_measures dfC9 = [("Count of city", Value.num 1)] :=
  ⟨by decide, by decide⟩

/-- Inserting into a sorted list grows it by one element. -/
theorem insertBy_length {α : Type} (le : α → α → Bool) (x : α) (l : List α) :
    (insertBy le x l).length = l.length + 1 := by
  induction l with
  | nil => rfl
  | cons y ys ih =>
    unfold insertBy
    split
    · simp
    · simp [ih]

/-- Insertion sort preserves length. -/
theorem sortBy_length {α : Type} (le : α → α → Bool) (l : List α) :
    (sortBy le l).length = l.length := by
  induction l with
  | nil => rfl
  | cons y ys ih => simp [sortBy, List.foldr] at ih ⊢; rw [insertBy_length, ih]

/-- The group-key list has exactly the distinct-count many entries. -/
theorem groupKeys_length (xs : List Value) :
    (groupKeys xs).length = nuniqueV xs := by
  simp [groupKeys, sortBy_length, nuniqueV, dropnaVals]

/-- C6 (amended): the Narrative Generator short-circuits to fallbacks for
missing configured columns and for a Bar Chart x column with fewer than 2
distinct values, and for Line/Area charts with fewer than 2 rows — but a
Pie/Donut chart whose values column sums to zero is NOT short-circuited:
the code computes the percentage sentence whose percentage is the
non-finite float 0/0 (modelled `none`), not a fallback. -/
theorem C6_narrative_guards_amended (corrF : List Value → List Value → ℚ)
    (cfg : String → Option CfgVal) (df : Df) :
    (cfg "type" = some (CfgVal.s "Bar Chart") →
      ((getStr cfg "x" = none ∨ getStr cfg "y" = none) →
        generate_narrative corrF cfg df = Narr.notEnoughCats) ∧
      (∀ x y c, getStr cfg "x" = some x → getStr cfg "y" = some y →
        findCol df x = some c → nuniqueV c.values < 2 →
        generate_narrative corrF cfg df = Narr.notEnoughCats)) ∧
    ((cfg "type" = some (CfgVal.s "Line Chart") ∨
        cfg "type" = some (CfgVal.s "Area Chart")) →
      (getStr cfg "x" = none ∨ getStr cfg "y" = none ∨ df.nrows < 2) →
      generate_narrative corrF cfg df = Narr.notEnoughPoints) ∧
    ((cfg "type" = some (CfgVal.s "Pie Chart") ∨
        cfg "type" = some (CfgVal.s "Donut Chart")) →
      ∀ names vals cn cv g, getNamesCol cfg = some names →
        getStr cfg "values" = some vals →
        findCol df names = some cn → 1 ≤ nuniqueV cn.values →
        findCol df vals = some cv →
        groupSums cn.values cv.values = Except.ok g →
        (g.map (fun p => p.2)).sum = 0 →
        ∃ largest, idxmaxG g = Except.ok largest ∧
          generate_narrative corrF cfg df = Narr.pieLargest largest none ∧
          isFallbackNarr (generate_narrative corrF cfg df) = false) := by
  refine ⟨?_, ?_, ?_⟩
  · intro hct
    constructor
    · intro hxy
      rcases hxy with hx | hy
      · simp [generate_narrative, tryNarrative, hct, hx]
      · rcases hx2 : getStr cfg "x" with _ | x <;>
          simp [generate_narrative, tryNarrative, hct, hx2, hy]
    · intro x y c hx hy hfind hnu
      simp [generate_narrative, tryNarrative, hct, hx, hy, reqCol, hfind, hnu,
        Except.instMonad, Except.bind]
  · intro hct hcond
    rcases hcond with hx | hy | hn
    · rcases hct with hct | hct <;>
        simp [generate_narrative, tryNarrative, hct, hx] <;> rfl
    · rcases hct with hct | hct <;>
        (rcases hx2 : getStr cfg "x" with _ | x <;>
          simp [generate_narrative, tryNarrative, hct, hx2, hy] <;> rfl)
    · rcases hct with hct | hct <;>
        (rcases hx2 : getStr cfg "x" with _ | x <;>
          rcases hy2 : getStr cfg "y" with _ | y <;>
          simp [generate_narrative, tryNarrative, hct, hx2, hy2, hn] <;> rfl)
  · intro hct names vals cn cv g hnames hvals hcn hnu hcv hg htot
    have hglen : g.length = nuniqueV cn.values := by
      have hgmap : g = (groupKeys cn.values).map (fun k =>
          (k, ((cn.values.zip cv.values).filterMap (fun p =>
            if p.1 == k then toNum p.2 else none)).sum)) := by
        unfold groupSums at hg
        split at hg
        · exact (Except.ok.inj hg).symm
        · cases hg
      rw [hgmap, List.length_map, groupKeys_length]
    obtain ⟨p, ps, rfl⟩ : ∃ p ps, g = p :: ps := by
      cases hgg : g with
      | nil => rw [hgg] at hglen; simp at hglen; omega
      | cons p ps => exact ⟨p, ps, rfl⟩
    have hmax : idxmaxG (p :: ps) = Except.ok
        ((ps.foldl (fun a r => if a.2 < r.2 then r else a) p).1) := rfl
    have hnu2 : ¬ (nuniqueV cn.values < 1) := by omega
    have hnu0 : nuniqueV cn.values ≠ 0 := by omega
    have htot2 : p.2 + (List.map (fun p => p.2) ps).sum = 0 := by simpa using htot
    have hres : generate_narrative corrF cfg df =
        Narr.pieLargest ((ps.foldl (fun a r => if a.2 < r.2 then r else a) p).1) none := by
      rcases hct with hct | hct <;>
        (simp only [generate_narrative, tryNarrative, hct]
         rw [if_neg (by decide), if_neg (by decide), if_neg (by decide),
           if_pos (by decide)]
         simp [hnames, hvals, reqCol, hcn, hnu2, hnu0, hcv, hg, htot2, idxmaxG,
           Except.instMonad, Except.bind])
    exact ⟨_, hmax, hres, by rw [hres]; rfl⟩

/-- C6 (witness): the Bar Chart guard on a frame whose x column has a
single distinct value returns the not-enough-distinct-categories
fallback. -/
theorem C6_witness :
    barCfg "type" = some (CfgVal.s "Bar Chart") ∧
    getStr barCfg "x" = some "cat" ∧
    getStr barCfg "y" = some "amt" ∧
    findCol dfC6bar "cat" =
      some { name := "cat", dtype := Dtype.object
             values := [Value.str "a", Value.str "a"] } ∧
    nuniqueV [Value.str "a", Value.str "a"] < 2 ∧
    generate_narrative corrF0 barCfg dfC6bar = Narr.notEnoughCats :=
  ⟨rfl, by decide, by decide, by decide, by decide,
    ((C6_narrative_guards_amended corrF0 barCfg dfC6bar).1 rfl).2 "cat" "amt"
      { name := "cat", dtype := Dtype.object, values := [Value.str "a", Value.str "a"] }
      (by decide) (by decide) (by decide) (by decide)⟩

/-- C6 (counterexample): a Pie Chart whose values column sums to zero does
not short-circuit to a fallback — the code returns the percentage sentence
with the non-finite 0/0 percentage (modelled `none`), refuting the claim
that zero totals yield a fallback instead of a percentage. -/
theorem C6_counterexample :
    generate_narrative corrF0 pieCfg dfC6 = Narr.pieLargest (Value.str "a") none ∧
    isFallbackNarr (generate_narrative corrF0 pieCfg dfC6) = false := by
  have h : tryNarrative corrF0 pieCfg dfC6 =
      Except.ok (Narr.pieLargest (Value.str "a") none) := by
    have hg : groupSums [Value.str "a", Value.str "b"] [Value.num 0, Value.num 0] =
        Except.ok [(Value.str "a", 0), (Value.str "b", 0)] := by
      simp +decide [groupSums, groupKeys, dropnaVals, dropDups, sortBy, insertBy,
        valueLe, isNa, toNum, charsLe, List.filter, List.filterMap]
    simp +decide [tryNarrative, pieCfg, getNamesCol, getStr, reqCol, findCol, dfC6, hg,
      idxmaxG, maxSumG, nuniqueV, dropnaVals, dropDups, isNa, Except.instMonad,
      Except.bind]
  rw [generate_narrative, h]
  exact ⟨rfl, rfl⟩

/-- Insertion grows a rational list by one. -/
theorem insertQ_length (x : ℚ) (l : List ℚ) :
    (insertQ x l).length = l.length + 1 := by
  induction l with
  | nil => rfl
  | cons y ys ih =>
    unfold insertQ
    split
    · simp
    · simp [ih]

/-- Sorting preserves length. -/
theorem sortQ_length (l : List ℚ) : (sortQ l).length = l.length := by
  induction l with
  | nil => rfl
  | cons y ys ih =>
    have hstep : sortQ (y :: ys) = insertQ y (sortQ ys) := rfl
    rw [hstep, insertQ_length, ih, List.length_cons]

/-- The median of a non-empty rational list exists. -/
theorem medianQ_isSome (l : List ℚ) (h : l ≠ []) : ∃ m, medianQ l = some m := by
  have hl0 : ¬ ((sortQ l).length = 0) := by
    rw [sortQ_length]
    simpa using h
  unfold medianQ
  rw [if_neg hl0]
  split <;> exact ⟨_, rfl⟩

/-- A numeric column with at least one number has a median. -/
theorem medianOfVals_isSome (vs : List Value) (q0 : ℚ) (hq : Value.num q0 ∈ vs) :
    ∃ m, medianOfVals vs = some m := by
  apply medianQ_isSome
  intro hnil
  have hmem : q0 ∈ vs.filterMap toNum :=
    List.mem_filterMap.mpr ⟨Value.num q0, hq, rfl⟩
  rw [hnil] at hmem
  cases hmem

/-- A map that replaces only missing cells is the identity on a series
without missing cells. -/
theorem map_fill_of_no_na (vs : List Value) (x : Value)
    (h : ∀ v ∈ vs, isNa v = false) :
    vs.map (fun v => if isNa v then x else v) = vs := by
  have h2 : ∀ v ∈ vs, (if isNa v then x else v) = v := by
    intro v hv
    simp [h v hv]
  rw [List.map_congr_left h2]
  simp

/-- `fillNumeric` on a column holding at least one number: the median
exists, every missing cell becomes that median, and no missing cell
remains. -/
theorem fillNumeric_spec (c : Col) (q0 : ℚ) (hq : Value.num q0 ∈ c.values) :
    ∃ m, medianOfVals c.values = some m ∧
      fillNumeric c = { c with values :=
        (c.values.map (fun v => if isNa v then Value.num m else v)) } ∧
      ∀ v ∈ (c.values.map (fun v => if isNa v then Value.num m else v)),
        isNa v = false := by
  obtain ⟨m, hm⟩ := medianOfVals_isSome c.values q0 hq
  have hmap : fillNumeric c = { c with values :=
      (c.values.map (fun v => if isNa v then Value.num m else v)) } := by
    unfold fillNumeric
    rcases hna : c.values.any isNa with _ | _
    · simp only [hna, Bool.false_eq_true, if_false]
      have hno : ∀ v ∈ c.values, isNa v = false := by
        intro v hv
        rcases hisna : isNa v with _ | _
        · rfl
        · exact absurd (List.any_eq_true.mpr ⟨v, hv, hisna⟩) (by simp [hna])
      rw [map_fill_of_no_na _ _ hno]
    · simp only [hna, if_true]
      rw [hm]
  refine ⟨m, hm, hmap, ?_⟩
  intro v hv
  rcases List.mem_map.mp hv with ⟨w, _, rfl⟩
  rcases hisna : isNa w with _ | _
  · simp [hisna]
  · simp [hisna, isNa]

/-- C2 (amended): after `clean_data`, every Numeric column of the
pre-imputation frame that holds at least one non-missing number appears in
the output with each previously-missing cell replaced by exactly the
pre-imputation median of that column, and with no missing cell left.
(An entirely-missing Numeric column keeps its missing cells: its median is
NaN and `fillna(NaN)` is a no-op — see the counterexample.) -/
theorem C2_numeric_imputation_amended (parse : Value → Option ℤ)
    (σ : List Value → List Value) (df : Df) (c : Col)
    (hc : c ∈ (preImpute parse σ df).cols) (hdt : c.dtype = Dtype.numeric)
    (q0 : ℚ) (hq : Value.num q0 ∈ c.values) :
    ∃ m, medianOfVals c.values = some m ∧
      { c with values := c.values.map (fun v => if isNa v then Value.num m else v) } ∈
        (clean_data parse σ df).1.cols ∧
      ∀ v ∈ (c.values.map (fun v => if isNa v then Value.num m else v)),
        isNa v = false := by
  obtain ⟨m, hm, hmap, hnona⟩ := fillNumeric_spec c q0 hq
  refine ⟨m, hm, ?_, hnona⟩
  show _ ∈ (imputeDf (preImpute parse σ df)).cols
  unfold imputeDf
  split
  · refine List.mem_map.mpr ⟨c, hc, ?_⟩
    have himp : imputeCol c = fillNumeric c := by
      unfold imputeCol
      rw [hdt]
    rw [himp, hmap]
  · rename_i hmiss
    have hsum : missingCount (preImpute parse σ df) = 0 := by omega
    have hcount : countNa c.values = 0 := by
      have hmem : countNa c.values ∈
          (preImpute parse σ df).cols.map (fun c => countNa c.values) :=
        List.mem_map.mpr ⟨c, hc, rfl⟩
      exact List.sum_eq_zero_iff.mp hsum _ hmem
    have hno : ∀ v ∈ c.values, isNa v = false := by
      intro v hv
      have := List.countP_eq_zero.mp hcount v hv
      simpa using this
    rw [map_fill_of_no_na _ _ hno]
    exact hc

/-- C2 (witness): the amended statement at the surviving numeric column
`a = [1, 2]` of the cleaned `dfC2`. -/
theorem C2_witness :
    (({ name := "a", dtype := Dtype.numeric,
        values := [Value.num 1, Value.num 2] } : Col) ∈
      (preImpute parseModel sampleTake dfC2).cols) ∧
    Value.num 1 ∈ [Value.num 1, Value.num 2] ∧
    (∃ m, medianOfVals [Value.num 1, Value.num 2] = some m ∧
      ({ name := "a", dtype := Dtype.numeric,
         values := [Value.num 1, Value.num 2].map
           (fun v => if isNa v then Value.num m else v) } : Col) ∈
        (clean_data parseModel sampleTake dfC2).1.cols ∧
      ∀ v ∈ ([Value.num 1, Value.num 2].map
          (fun v => if isNa v then Value.num m else v)), isNa v = false) :=
  ⟨by decide, by decide,
    C2_numeric_imputation_amended parseModel sampleTake dfC2
      { name := "a", dtype := Dtype.numeric, values := [Value.num 1, Value.num 2] }
      (by decide) rfl 1 (by decide)⟩

/-- C2 (counterexample): the entirely-missing numeric column `b` of `dfC2`
still contains missing values after `clean_data`, refuting the claim that
no Numeric column of the cleaned output contains a missing value. -/
theorem C2_counterexample :
    (clean_data parseModel sampleTake dfC2).1 =
      { nrows := 2
        cols := [{ name := "a", dtype := Dtype.numeric
                   values := [Value.num 1, Value.num 2] },
                 { name := "b", dtype := Dtype.numeric
                   values := [Value.na, Value.na] }] } ∧
    ((clean_data parseModel sampleTake dfC2).1.cols.any
      (fun c => c.dtype == Dtype.numeric && c.values.any isNa)) = true :=
  ⟨by decide, by decide⟩

/-- `getD` through a `map` at an in-range index. -/
theorem getD_map_lt {α β : Type} (f : α → β) (l : List α) (i : Nat) (d : β)
    (h : i < l.length) :
    (l.map f).getD i d = f (l.get ⟨i, h⟩) := by
  rw [List.getD_eq_getElem?_getD, List.getElem?_map,
    List.getElem?_eq_getElem h]
  rfl

/-- The kept row indices are strictly increasing. -/
theorem keepIdxs_sorted (df : Df) : (keepIdxs df).Pairwise (· < ·) :=
  List.Pairwise.sublist (List.filter_sublist _) (List.pairwise_lt_range _)

/-- A row of the deduplicated frame is the corresponding kept row of the
original frame. -/
theorem rowAt_dropDupRows (df : Df) (i : Nat) (h : i < (keepIdxs df).length) :
    rowAt (dropDupRows df) i = rowAt df ((keepIdxs df).get ⟨i, h⟩) := by
  unfold rowAt dropDupRows
  simp only [List.map_map]
  apply List.map_congr_left
  intro c _
  simp only [Function.comp]
  exact getD_map_lt _ _ _ _ h

/-- `drop_duplicates` leaves no duplicated rows: the count of the second
pass is zero. -/
theorem dupRowCount_dropDupRows (df : Df) : dupRowCount (dropDupRows df) = 0 := by
  have hall : ∀ i ∈ List.range (keepIdxs df).length,
      isFirstOcc (dropDupRows df) i = true := by
    intro i hi
    have hilt : i < (keepIdxs df).length := List.mem_range.mp hi
    unfold isFirstOcc
    rcases hany : (List.range i).any
        (fun j => rowAt (dropDupRows df) j == rowAt (dropDupRows df) i) with _ | _
    · rfl
    · exfalso
      rcases List.any_eq_true.mp hany with ⟨j, hjmem, hjeq⟩
      have hjlt : j < i := List.mem_range.mp hjmem
      have hjlt2 : j < (keepIdxs df).length := by omega
      rw [rowAt_dropDupRows df j hjlt2, rowAt_dropDupRows df i hilt] at hjeq
      have hkj : (keepIdxs df).get ⟨j, hjlt2⟩ < (keepIdxs df).get ⟨i, hilt⟩ :=
        List.pairwise_iff_get.mp (keepIdxs_sorted df) _ _ hjlt
      have hkimem : (keepIdxs df).get ⟨i, hilt⟩ ∈ keepIdxs df := List.get_mem _ _ _
      have hfirst : isFirstOcc df ((keepIdxs df).get ⟨i, hilt⟩) = true :=
        (List.mem_filter.mp hkimem).2
      unfold isFirstOcc at hfirst
      have : (List.range ((keepIdxs df).get ⟨i, hilt⟩)).any
          (fun j2 => rowAt df j2 == rowAt df ((keepIdxs df).get ⟨i, hilt⟩)) = true :=
        List.any_eq_true.mpr ⟨(keepIdxs df).get ⟨j, hjlt2⟩,
          List.mem_range.mpr hkj, hjeq⟩
      rw [this] at hfirst
      cases hfirst
  unfold dupRowCount
  have : keepIdxs (dropDupRows df) = List.range (keepIdxs df).length := by
    unfold keepIdxs
    show (List.range (keepIdxs df).length).filter _ = _
    exact List.filter_eq_self.mpr hall
  rw [this, List.length_range]
  show (keepIdxs df).length - (keepIdxs df).length = 0
  omega

/-- Name cleaning does not change rows. -/
theorem rowAt_cleanNames (df : Df) (i : Nat) :
    rowAt (cleanNamesDf df) i = rowAt df i := by
  unfold rowAt cleanNamesDf
  simp [List.map_map, Function.comp]

/-- Name cleaning does not change which rows are duplicates. -/
theorem dupRowCount_cleanNames (df : Df) :
    dupRowCount (cleanNamesDf df) = dupRowCount df := by
  unfold dupRowCount keepIdxs
  have hn : (cleanNamesDf df).nrows = df.nrows := rfl
  rw [hn]
  have : ∀ i ∈ List.range df.nrows,
      isFirstOcc (cleanNamesDf df) i = isFirstOcc df i := by
    intro i _
    unfold isFirstOcc
    have : ∀ j, (rowAt (cleanNamesDf df) j == rowAt (cleanNamesDf df) i) =
        (rowAt df j == rowAt df i) := by
      intro j
      rw [rowAt_cleanNames, rowAt_cleanNames]
    simp only [this]
  rw [List.filter_congr this]

/-- Name cleaning does not change the missing-cell count. -/
theorem missingCount_cleanNames (df : Df) :
    missingCount (cleanNamesDf df) = missingCount df := by
  unfold missingCount cleanNamesDf
  rw [List.map_map]
  rfl

/-- When step 2 flags nothing, it leaves the frame untouched. -/
theorem removeUseless_of_nil (df : Df) (h : uselessNames df = []) :
    _remove_useless_columns df = df := by
  unfold uselessNames at h
  have hfl : df.cols.filter (fun c => isUselessCol df.nrows c) = [] :=
    List.map_eq_nil_iff.mp h
  have hall : ∀ c ∈ df.cols, ¬ (isUselessCol df.nrows c = true) :=
    List.filter_eq_nil_iff.mp hfl
  unfold _remove_useless_columns
  have : df.cols.filter (fun c => !(isUselessCol df.nrows c)) = df.cols :=
    List.filter_eq_self.mpr (by
      intro c hc
      simp [hall c hc])
  rw [this]

/-- C4 (amended): when the first run fills no missing values and neither
run's datetime-conversion step changes the frame and the second run flags
no useless columns, a second `clean_data` on the first run's output
reports `duplicates_removed = 0` and `missing_values_filled = 0`.  (The
hypotheses are needed: imputation can merge previously-distinct rows — see
the counterexample — and a conversion or column drop in the second run can
create new missing values or new duplicate rows.) -/
theorem C4_second_run_amended (parse : Value → Option ℤ)
    (σ σ2 : List Value → List Value) (df : Df)
    (h1' : convertDates parse σ (cleanStage3 df) = cleanStage3 df)
    (h1 : (clean_data parse σ df).2.missing_values_filled = 0)
    (h2 : uselessNames (cleanNamesDf (clean_data parse σ df).1) = [])
    (h3 : convertDates parse σ2 (cleanNamesDf (clean_data parse σ df).1) =
      cleanNamesDf (clean_data parse σ df).1) :
    (clean_data parse σ2 (clean_data parse σ df).1).2.duplicates_removed = 0 ∧
    (clean_data parse σ2 (clean_data parse σ df).1).2.missing_values_filled = 0 := by
  have hmiss0 : missingCount (preImpute parse σ df) = 0 := by
    have hh := h1
    simp only [clean_data] at hh
    exact hh
  have houteq : (clean_data parse σ df).1 = cleanStage3 df := by
    simp only [clean_data]
    unfold imputeDf
    rw [if_neg (by omega)]
    simp only [preImpute]
    exact h1'
  have hmissS3 : missingCount (cleanStage3 df) = 0 := by
    rw [← h1']
    have hh := hmiss0
    simp only [preImpute] at hh
    exact hh
  have hdup_out : dupRowCount (clean_data parse σ df).1 = 0 := by
    rw [houteq]
    simp only [cleanStage3]
    split
    · exact dupRowCount_dropDupRows _
    · omega
  have hru : _remove_useless_columns (cleanNamesDf (clean_data parse σ df).1) =
      cleanNamesDf (clean_data parse σ df).1 := removeUseless_of_nil _ h2
  rw [houteq] at hru h3 hdup_out
  set S := cleanStage3 df with hS
  constructor
  · rw [houteq]
    simp only [clean_data]
    rw [hru, dupRowCount_cleanNames]
    exact hdup_out
  · rw [houteq]
    simp only [clean_data, preImpute, cleanStage3]
    rw [hru]
    rw [if_neg (by
      rw [dupRowCount_cleanNames, hdup_out]
      omega)]
    rw [h3, missingCount_cleanNames]
    exact hmissS3

/-- C4 (witness): the amended statement on a frame that cleaning leaves
fixed (no duplicates, no missing values, no useless or object columns). -/
theorem C4_witness :
    convertDates parseModel sampleTake (cleanStage3 dfC4W) = cleanStage3 dfC4W ∧
    (clean_data parseModel sampleTake dfC4W).2.missing_values_filled = 0 ∧
    uselessNames (cleanNamesDf (clean_data parseModel sampleTake dfC4W).1) = [] ∧
    convertDates parseModel sampleTake
      (cleanNamesDf (clean_data parseModel sampleTake dfC4W).1) =
      cleanNamesDf (clean_data parseModel sampleTake dfC4W).1 ∧
    (clean_data parseModel sampleTake
      (clean_data parseModel sampleTake dfC4W).1).2.duplicates_removed = 0 ∧
    (clean_data parseModel sampleTake
      (clean_data parseModel sampleTake dfC4W).1).2.missing_values_filled = 0 := by
  refine ⟨by decide, by decide, by decide, by decide, ?_⟩
  exact C4_second_run_amended parseModel sampleTake sampleTake dfC4W
    (by decide) (by decide) (by decide) (by decide)

/-- C4 (counterexample): on `dfC4` the first run imputes the single missing
cell to the median 2, which makes rows 0 and 1 equal; the second run then
reports `duplicates_removed = 1`, refuting the claim that it reports 0. -/
theorem C4_counterexample :
    (clean_data parseModel sampleTake
      ((clean_data parseModel sampleTake dfC4).1)).2.duplicates_removed = 1 := by
  decide

/-- Reading every index of a list back in order reproduces the list. -/
theorem range_map_getD {α : Type} (l : List α) (d : α) :
    (List.range l.length).map (fun i => l.getD i d) = l := by
  induction l with
  | nil => rfl
  | cons x xs ih =>
    rw [List.length_cons, List.range_succ_eq_map, List.map_cons, List.map_map]
    congr 1

/-- Taking the first `min len 20` values is a valid sample draw. -/
theorem samplerOK_sampleTake : SamplerOK sampleTake := by
  intro vs
  constructor
  · simp [sampleTake, List.length_take, Nat.min_comm]
  · exact (List.take_sublist _ _).subperm

/-- Taking the last `min len 20` values is a valid sample draw. -/
theorem samplerOK_sampleDrop : SamplerOK sampleDrop := by
  intro vs
  constructor
  · simp only [sampleDrop, List.length_drop]
    omega
  · exact (List.drop_sublist _ _).subperm

/-- Every column surviving steps 1-3 of cleaning corresponds to an input
column with the same dtype whose values contain it as a sublist. -/
theorem cleanStage3_cols (df : Df) (hwf : df.WF) :
    ∀ c2 ∈ (cleanStage3 df).cols, ∃ c ∈ df.cols, c2.dtype = c.dtype ∧
      List.Sublist c2.values c.values := by
  intro c2 hc2
  have hnr : (_remove_useless_columns (cleanNamesDf df)).nrows = df.nrows := rfl
  simp only [cleanStage3] at hc2
  split at hc2
  · rcases List.mem_map.mp hc2 with ⟨c1, hc1, rfl⟩
    rcases List.mem_filter.mp hc1 with ⟨hc1m, _⟩
    rcases List.mem_map.mp hc1m with ⟨c0, hc0, rfl⟩
    refine ⟨c0, hc0, rfl, ?_⟩
    have hlen : c0.values.length = (_remove_useless_columns (cleanNamesDf df)).nrows := by
      rw [hnr]
      exact hwf c0 hc0
    have hsub1 : List.Sublist (keepIdxs (_remove_useless_columns (cleanNamesDf df)))
        (List.range (_remove_useless_columns (cleanNamesDf df)).nrows) :=
      List.filter_sublist _
    have hsub2 := hsub1.map (fun i => c0.values.getD i Value.na)
    have heq : (List.range (_remove_useless_columns (cleanNamesDf df)).nrows).map
        (fun i => c0.values.getD i Value.na) = c0.values := by
      rw [← hlen]
      exact range_map_getD c0.values Value.na
    rw [heq] at hsub2
    exact hsub2
  · rcases List.mem_filter.mp hc2 with ⟨hc2m, _⟩
    rcases List.mem_map.mp hc2m with ⟨c0, hc0, rfl⟩
    exact ⟨c0, hc0, rfl, List.Sublist.refl _⟩

/-- Two valid sample draws classify a column with at most 20 non-missing
values identically: both draws are permutations of the whole series, and
the parse-success fraction is permutation-invariant. -/
theorem likelyDate_sampler_eq (parse : Value → Option ℤ)
    (σ₁ σ₂ : List Value → List Value) (h₁ : SamplerOK σ₁) (h₂ : SamplerOK σ₂)
    (c : Col) (hlen : c.dtype = Dtype.object → (dropnaVals c.values).length ≤ 20) :
    _is_likely_date_column parse σ₁ c = _is_likely_date_column parse σ₂ c := by
  unfold _is_likely_date_column
  rcases hdt : (c.dtype != Dtype.object) with _ | _
  · have hobj : c.dtype = Dtype.object := by
      rcases hd : c.dtype <;> simp [hd] at hdt ⊢
    have h20 := hlen hobj
    have hperm : ∀ σ : List Value → List Value, SamplerOK σ →
        (σ (dropnaVals c.values)).Perm (dropnaVals c.values) := by
      intro σ hσ
      obtain ⟨hl, hsp⟩ := hσ (dropnaVals c.values)
      refine hsp.perm_of_length_le ?_
      rw [hl]
      omega
    have hp₁ := hperm σ₁ h₁
    have hp₂ := hperm σ₂ h₂
    have e1 : (σ₁ (dropnaVals c.values)).length = (σ₂ (dropnaVals c.values)).length := by
      rw [hp₁.length_eq, hp₂.length_eq]
    have e2 : (σ₁ (dropnaVals c.values)).countP (fun v => (parse v).isSome) =
        (σ₂ (dropnaVals c.values)).countP (fun v => (parse v).isSome) := by
      rw [hp₁.countP_eq, hp₂.countP_eq]
    have e3 : (σ₁ (dropnaVals c.values)).isEmpty = (σ₂ (dropnaVals c.values)).isEmpty := by
      have hb : ∀ l : List Value, l.isEmpty = decide (l.length = 0) := by
        intro l
        cases l <;> simp
      rw [hb, hb, e1]
    simp only [hdt, Bool.false_eq_true, if_false, e1, e2, e3]
  · simp [hdt]

/-- Step 4 is independent of the random draw on frames whose object
columns have at most 20 non-missing values. -/
theorem convertDates_sampler_eq (parse : Value → Option ℤ)
    (σ₁ σ₂ : List Value → List Value) (h₁ : SamplerOK σ₁) (h₂ : SamplerOK σ₂)
    (x : Df)
    (hsmall : ∀ c ∈ x.cols, c.dtype = Dtype.object →
      (dropnaVals c.values).length ≤ 20) :
    convertDates parse σ₁ x = convertDates parse σ₂ x := by
  unfold convertDates
  congr 1
  apply List.map_congr_left
  intro c hc
  rw [likelyDate_sampler_eq parse σ₁ σ₂ h₁ h₂ c (hsmall c hc)]

/-- C3 (amended): `clean_data` is independent of the unseeded random
sample — hence two runs agree — whenever every object column of a
well-formed input has at most 20 non-missing values, because then the
sample is a permutation of the whole series.  (With more than 20 values
the drawn subset matters: see the counterexample.) -/
theorem C3_determinism_amended (parse : Value → Option ℤ)
    (σ₁ σ₂ : List Value → List Value) (df : Df)
    (h₁ : SamplerOK σ₁) (h₂ : SamplerOK σ₂) (hwf : df.WF)
    (hsmall : ∀ c ∈ df.cols, c.dtype = Dtype.object →
      (dropnaVals c.values).length ≤ 20) :
    clean_data parse σ₁ df = clean_data parse σ₂ df := by
  have hconv : preImpute parse σ₁ df = preImpute parse σ₂ df := by
    unfold preImpute
    apply convertDates_sampler_eq parse σ₁ σ₂ h₁ h₂
    intro c hc hobj
    obtain ⟨c0, hc0, hdt, hsub⟩ := cleanStage3_cols df hwf c hc
    have hle : (dropnaVals c.values).length ≤ (dropnaVals c0.values).length :=
      List.Sublist.length_le (List.Sublist.filter _ hsub)
    have h20 := hsmall c0 hc0 (hdt.symm.trans hobj)
    omega
  unfold clean_data
  rw [hconv]

/-- C3 (witness): the amended statement on a 2-row frame whose object
column has 2 non-missing values, for the two concrete valid draws. -/
theorem C3_witness :
    SamplerOK sampleTake ∧ SamplerOK sampleDrop ∧ dfC3W.WF ∧
    (∀ c ∈ dfC3W.cols, c.dtype = Dtype.object →
      (dropnaVals c.values).length ≤ 20) ∧
    clean_data parseModel sampleTake dfC3W = clean_data parseModel sampleDrop dfC3W :=
  ⟨samplerOK_sampleTake, samplerOK_sampleDrop, by unfold Df.WF; decide, by decide,
    C3_determinism_amended parseModel sampleTake sampleDrop dfC3W
      samplerOK_sampleTake samplerOK_sampleDrop (by unfold Df.WF; decide) (by decide)⟩

/-- C3 (counterexample): on `dfC3` — whose object column has 30 non-missing
values, 15 of them parseable dates in front — the first-20 draw and the
last-20 draw are both valid samples of `Series.sample(n=min(len, 20))`,
yet they produce different cleaned frames and different logs (one converts
`when` to DateTime and fills 15 coerced missing cells, the other leaves it
object), refuting determinism across runs. -/
theorem C3_counterexample :
    SamplerOK sampleTake ∧ SamplerOK sampleDrop ∧
    clean_data parseModel sampleTake dfC3 ≠ clean_data parseModel sampleDrop dfC3 :=
  ⟨samplerOK_sampleTake, samplerOK_sampleDrop, by decide⟩

end BI
